import Mathlib

/-!
Verification of the layered field-extraction engine of the lab-report service
(`base_parser.py`, `parser_factory.py`, `parser_lab_report.py`,
`parser_fbc_report.py`).  The Python code is shallowly embedded: Python
strings become `String`, `re` patterns are kept as their literal pattern
strings and interpreted by an executable backtracking matcher (`compile`,
`reSearch`) that mirrors Python `re` semantics for the constructs those
patterns use (character classes, greedy/lazy repetition, bounded repetition,
alternation, capturing and non-capturing groups, negative lookahead,
`re.IGNORECASE`), and Python dicts become insertion-ordered association
lists (`dset`/`dlookup`).
-/

namespace MediLink

set_option maxRecDepth 10000

/-! ### Python string primitives -/

/-- Python `str` whitespace (as used by `str.strip` and by the regex class
`\s`): space, tab, newline, carriage return, vertical tab, form feed. -/
def pyWs (c : Char) : Bool :=
  c = ' ' || c = '\t' || c = '\n' || c = '\r' || c = '\x0b' || c = '\x0c'

/-- `str.lower` on a single ASCII character (ASCII case mapping, which is all
the repository's marker/keyword strings need). -/
def lowC (c : Char) : Char := c.toLower

def upC (c : Char) : Char := c.toUpper

/-- Python `s.lower()`. -/
def lowerStr (s : String) : String := ⟨s.data.map lowC⟩

/-- `list.dropWhile` from the left and from the right: Python `str.strip()`. -/
def lstripL (l : List Char) : List Char := l.dropWhile pyWs

def rstripL (l : List Char) : List Char := (l.reverse.dropWhile pyWs).reverse

def stripL (l : List Char) : List Char := rstripL (lstripL l)

/-- Python `s.strip()`. -/
def strip (s : String) : String := ⟨stripL s.data⟩

/-- Contiguous-sublist test on `List Char`; `containsSub n h` is Python's
`n in h` on strings. -/
def containsSub (n : List Char) : List Char → Bool
  | [] => n.isEmpty
  | c :: t => n.isPrefixOf (c :: t) || containsSub n t

/-- Python `needle in hay` (substring containment). -/
def strIn (needle hay : String) : Bool := containsSub needle.data hay.data

/-- Python `s.split('\n')` (keeps empty pieces). -/
def splitNlL (acc : List Char) : List Char → List String
  | [] => [⟨acc.reverse⟩]
  | c :: t => if c = '\n' then ⟨acc.reverse⟩ :: splitNlL [] t else splitNlL (c :: acc) t

def splitNl (s : String) : List String := splitNlL [] s.data

/-- Python `s.replace(old, new)` for non-empty `old`: all non-overlapping
occurrences, left to right (fuel = length of the subject). -/
def strReplaceL (old new : List Char) : Nat → List Char → List Char
  | _, [] => []
  | 0, l => l
  | fuel + 1, c :: t =>
    if old ≠ [] && old.isPrefixOf (c :: t) then
      new ++ strReplaceL old new fuel ((c :: t).drop old.length)
    else
      c :: strReplaceL old new fuel t

def strReplace (s old new : String) : String :=
  ⟨strReplaceL old.data new.data s.data.length s.data⟩

/-- The characters `re.escape` escapes (Python ≥ 3.7):
`()[]{}?*+-|^$\.&~#` and the whitespace characters. -/
def reEscapeSpecial (c : Char) : Bool :=
  c = '(' || c = ')' || c = '[' || c = ']' || c = '\x7b' || c = '\x7d' ||
  c = '?' || c = '*' || c = '+' || c = '-' || c = '|' || c = '^' || c = '$' ||
  c = '\\' || c = '.' || c = '&' || c = '~' || c = '#' || c = ' ' ||
  c = '\t' || c = '\n' || c = '\r' || c = '\x0b' || c = '\x0c'

/-- Python `re.escape`. -/
def reEscape (s : String) : String :=
  ⟨s.data.foldr (fun c acc => if reEscapeSpecial c then '\\' :: c :: acc else c :: acc) []⟩

/-! ### Regex abstract syntax -/

/-- One member of a character class. -/
inductive CItem where
  | ch (c : Char)
  | rng (a b : Char)
  | dcls
  | scls
  | wcls
deriving Repr, DecidableEq

/-- Regexes in the fragment the repository's patterns use.  `plus` and `?`
are desugared at parse time; `star true` is the lazy `*?`. -/
inductive RE where
  | eps
  | lit (c : Char)
  | dot
  | cls (neg : Bool) (items : List CItem)
  | cat (a b : RE)
  | alt (a b : RE)
  | star (lazy : Bool) (a : RE)
  | grp (n : Nat) (a : RE)
  | nla (a : RE)
deriving Repr

/-! ### Pattern-string compilation (Python `re` syntax, needed fragment) -/

def escCItem (c : Char) : CItem :=
  if c = 'd' then .dcls
  else if c = 's' then .scls
  else if c = 'w' then .wcls
  else if c = 'n' then .ch '\n'
  else if c = 'r' then .ch '\r'
  else if c = 't' then .ch '\t'
  else if c = 'v' then .ch '\x0b'
  else if c = 'f' then .ch '\x0c'
  else .ch c

def escAtom (c : Char) : RE :=
  if c = 'd' then .cls false [.dcls]
  else if c = 's' then .cls false [.scls]
  else if c = 'w' then .cls false [.wcls]
  else if c = 'n' then .lit '\n'
  else if c = 'r' then .lit '\r'
  else if c = 't' then .lit '\t'
  else if c = 'v' then .lit '\x0b'
  else if c = 'f' then .lit '\x0c'
  else .lit c

/-- Items of a character class, up to the closing `]`. -/
def pClsItems : Nat → List Char → Option (List CItem × List Char)
  | 0, _ => none
  | _ + 1, [] => none
  | fuel + 1, c :: t =>
    if c = ']' then some ([], t)
    else if c = '\\' then
      match t with
      | [] => none
      | e :: t2 =>
        match pClsItems fuel t2 with
        | some (items, rest) => some (escCItem e :: items, rest)
        | none => none
    else
      match t with
      | '-' :: b :: t2 =>
        if b = ']' then some ([.ch c, .ch '-'], t2)
        else
          match pClsItems fuel t2 with
          | some (items, rest) => some (.rng c b :: items, rest)
          | none => none
      | _ =>
        match pClsItems fuel t with
        | some (items, rest) => some (.ch c :: items, rest)
        | none => none

/-- `n` concatenated copies of `a`. -/
def repCat (a : RE) : Nat → RE
  | 0 => .eps
  | n + 1 => .cat a (repCat a n)

/-- Up to `n` further copies of `a`, greedy (`alt (a ...) eps`) or lazy. -/
def optChain (lzy : Bool) (a : RE) : Nat → RE
  | 0 => .eps
  | n + 1 =>
    if lzy then .alt .eps (.cat a (optChain lzy a n))
    else .alt (.cat a (optChain lzy a n)) .eps

/-- Read a decimal number. -/
def readNatL (l : List Char) : Option (Nat × List Char) :=
  let digits := l.takeWhile Char.isDigit
  if digits = [] then none
  else some (digits.foldl (fun n c => 10 * n + (c.toNat - 48)) 0, l.drop digits.length)

/-- The four levels of the recursive-descent pattern grammar. -/
inductive PMode where
  | palt
  | pseq
  | pitem
  | patom
deriving Repr, DecidableEq

/-- Recursive descent over a pattern string, fuel-indexed: `palt` parses
`seq ('|' seq)*`, `pseq` a sequence of items, `pitem` an atom with an
optional quantifier (`*` `+` `?` `\x7bm,n\x7d` and lazy forms), `patom`
groups, lookahead, classes, escapes, `.` and literals.  `g` counts the
capturing groups opened so far. -/
def pRun : Nat → PMode → Nat → List Char → Option (RE × Nat × List Char)
  | 0, _, _, _ => none
  | fuel + 1, PMode.palt, g, cs =>
    (match pRun fuel PMode.pseq g cs with
     | none => none
     | some (r, g2, rest) =>
       match rest with
       | '|' :: rest2 =>
         (match pRun fuel PMode.palt g2 rest2 with
          | some (r2, g3, rest3) => some (.alt r r2, g3, rest3)
          | none => none)
       | _ => some (r, g2, rest))
  | fuel + 1, PMode.pseq, g, cs =>
    (match cs with
     | [] => some (.eps, g, [])
     | ')' :: _ => some (.eps, g, cs)
     | '|' :: _ => some (.eps, g, cs)
     | _ =>
       match pRun fuel PMode.pitem g cs with
       | none => none
       | some (r, g2, rest) =>
         match pRun fuel PMode.pseq g2 rest with
         | some (r2, g3, rest3) => some (.cat r r2, g3, rest3)
         | none => none)
  | fuel + 1, PMode.pitem, g, cs =>
    (match pRun fuel PMode.patom g cs with
     | none => none
     | some (a, g2, rest) =>
       match rest with
       | '*' :: '?' :: r2 => some (.star true a, g2, r2)
       | '*' :: r2 => some (.star false a, g2, r2)
       | '+' :: '?' :: r2 => some (.cat a (.star true a), g2, r2)
       | '+' :: r2 => some (.cat a (.star false a), g2, r2)
       | '?' :: '?' :: r2 => some (.alt .eps a, g2, r2)
       | '?' :: r2 => some (.alt a .eps, g2, r2)
       | '\x7b' :: r2 =>
         (match readNatL r2 with
          | some (m, ',' :: r3) =>
            (match readNatL r3 with
             | some (n, '\x7d' :: '?' :: r4) =>
               some (.cat (repCat a m) (optChain true a (n - m)), g2, r4)
             | some (n, '\x7d' :: r4) =>
               some (.cat (repCat a m) (optChain false a (n - m)), g2, r4)
             | _ => none)
          | _ => none)
       | _ => some (a, g2, rest))
  | fuel + 1, PMode.patom, g, cs =>
    (match cs with
     | [] => none
     | '(' :: '?' :: ':' :: r =>
       (match pRun fuel PMode.palt g r with
        | some (re, g2, ')' :: rest) => some (re, g2, rest)
        | _ => none)
     | '(' :: '?' :: '!' :: r =>
       (match pRun fuel PMode.palt g r with
        | some (re, g2, ')' :: rest) => some (.nla re, g2, rest)
        | _ => none)
     | '(' :: r =>
       (match pRun fuel PMode.palt (g + 1) r with
        | some (re, g2, ')' :: rest) => some (.grp (g + 1) re, g2, rest)
        | _ => none)
     | '[' :: '^' :: r =>
       (match pClsItems fuel r with
        | some (items, rest) => some (.cls true items, g, rest)
        | none => none)
     | '[' :: r =>
       (match pClsItems fuel r with
        | some (items, rest) => some (.cls false items, g, rest)
        | none => none)
     | '\\' :: e :: r => some (escAtom e, g, r)
     | '.' :: r => some (.dot, g, r)
     | c :: r =>
       if c = '*' || c = '+' || c = '?' || c = ')' || c = '|' then none
       else some (.lit c, g, r))

/-- Compile a Python pattern string of the supported fragment. -/
def compile (pat : String) : Option RE :=
  let cs := pat.data
  match pRun (8 * (cs.length + 1)) PMode.palt 0 cs with
  | some (r, _, []) => some r
  | _ => none

/-! ### Backtracking matcher (Python `re` preference order) -/

/-- Captures: `(group, start, stop)`, most recent first. -/
abbrev Caps := List (Nat × Nat × Nat)

def litMatch (ci : Bool) (l c : Char) : Bool :=
  c = l || (ci && lowC c = lowC l)

def itemMatch0 (it : CItem) (c : Char) : Bool :=
  match it with
  | .ch d => c = d
  | .rng a b => a ≤ c && c ≤ b
  | .dcls => c.isDigit
  | .scls => pyWs c
  | .wcls => c.isAlphanum || c = '_'

def itemMatch (ci : Bool) (it : CItem) (c : Char) : Bool :=
  itemMatch0 it c || (ci && (itemMatch0 it (lowC c) || itemMatch0 it (upC c)))

def clsMatch (ci neg : Bool) (items : List CItem) (c : Char) : Bool :=
  let m := items.any (fun it => itemMatch ci it c)
  if neg then !m else m

/-- Kleene-star loop: `m` matches one body iteration; empty iterations are
pruned (the repository's star bodies always consume input). -/
def starLoop (m : Nat → Caps → (Nat → Caps → Option (Nat × Caps)) → Option (Nat × Caps))
    (lzy : Bool) : Nat → Nat → Caps → (Nat → Caps → Option (Nat × Caps)) → Option (Nat × Caps)
  | 0, pos, caps, k => k pos caps
  | fuel + 1, pos, caps, k =>
    if lzy then
      (k pos caps).orElse fun _ =>
        m pos caps fun pos2 caps2 =>
          if pos2 = pos then none else starLoop m lzy fuel pos2 caps2 k
    else
      (m pos caps fun pos2 caps2 =>
        if pos2 = pos then none else starLoop m lzy fuel pos2 caps2 k).orElse
        fun _ => k pos caps

/-- CPS backtracking matcher; the first success in Python's depth-first
preference order is returned. -/
def mtch (cs : List Char) (ci : Bool) :
    RE → Nat → Caps → (Nat → Caps → Option (Nat × Caps)) → Option (Nat × Caps)
  | .eps, pos, caps, k => k pos caps
  | .lit c, pos, caps, k =>
    (match cs[pos]? with
     | some d => if litMatch ci c d then k (pos + 1) caps else none
     | none => none)
  | .dot, pos, caps, k =>
    (match cs[pos]? with
     | some d => if d = '\n' then none else k (pos + 1) caps
     | none => none)
  | .cls neg items, pos, caps, k =>
    (match cs[pos]? with
     | some d => if clsMatch ci neg items d then k (pos + 1) caps else none
     | none => none)
  | .cat a b, pos, caps, k =>
    mtch cs ci a pos caps fun p2 c2 => mtch cs ci b p2 c2 k
  | .alt a b, pos, caps, k =>
    (mtch cs ci a pos caps k).orElse fun _ => mtch cs ci b pos caps k
  | .star lzy a, pos, caps, k =>
    starLoop (fun p c k2 => mtch cs ci a p c k2) lzy (cs.length + 1) pos caps k
  | .grp n a, pos, caps, k =>
    mtch cs ci a pos caps fun p2 c2 => k p2 ((n, pos, p2) :: c2)
  | .nla a, pos, caps, k =>
    (match mtch cs ci a pos caps (fun p c => some (p, c)) with
     | some _ => none
     | none => k pos caps)

/-- A match: span of group 0 plus the captures. -/
structure MRes where
  ms : Nat
  me : Nat
  caps : Caps
deriving Repr, DecidableEq

/-- `re.search` scan: try successive start positions, leftmost success wins. -/
def searchFrom (cs : List Char) (ci : Bool) (r : RE) : Nat → Nat → Option MRes
  | 0, _ => none
  | fuel + 1, s =>
    match mtch cs ci r s [] (fun p c => some (p, c)) with
    | some (e, caps) => some ⟨s, e, caps⟩
    | none => if s < cs.length then searchFrom cs ci r fuel (s + 1) else none

def sliceStr (cs : List Char) (s e : Nat) : String := ⟨(cs.drop s).take (e - s)⟩

/-- `match.group(n)`; `n = 0` is the whole match. -/
def mGroup (text : String) (m : MRes) (n : Nat) : Option String :=
  if n = 0 then some (sliceStr text.data m.ms m.me)
  else
    match m.caps.find? (fun t => t.1 = n) with
    | some t => some (sliceStr text.data t.2.1 t.2.2)
    | none => none

/-- `re.search(pattern, text[, re.IGNORECASE])`. -/
def reSearch (ci : Bool) (pat text : String) : Option MRes :=
  match compile pat with
  | some r => searchFrom text.data ci r (text.data.length + 1) 0
  | none => none

/-- `re.search(...)` then `match.group(1)`. -/
def reGroup1 (ci : Bool) (pat text : String) : Option String :=
  match reSearch ci pat text with
  | some m => mGroup text m 1
  | none => none

/-- `re.finditer`: non-overlapping matches, left to right. -/
def finditerFrom (cs : List Char) (ci : Bool) (r : RE) : Nat → Nat → List MRes
  | 0, _ => []
  | fuel + 1, s =>
    match searchFrom cs ci r (cs.length + 1 - s) s with
    | some m => m :: finditerFrom cs ci r fuel (if m.me > m.ms then m.me else m.me + 1)
    | none => []

def reFinditer (ci : Bool) (pat text : String) : List MRes :=
  match compile pat with
  | some r => finditerFrom text.data ci r (text.data.length + 2) 0
  | none => []

end MediLink

namespace MediLink

/-! ### Python dicts as insertion-ordered association lists -/

/-- `d[k] = v` on a Python dict: update in place if the key exists (dict
keys are unique), else append. -/
def dset : List (String × String) → String → String → List (String × String)
  | [], k, v => [(k, v)]
  | p :: t, k, v => if p.1 = k then (k, v) :: t else p :: dset t k v

/-- `d.get(k)` / `d[k]`. -/
def dlookup : List (String × String) → String → Option String
  | [], _ => none
  | p :: t, k => if p.1 = k then some p.2 else dlookup t k

/-- `k in d`. -/
def dmem : List (String × String) → String → Bool
  | [], _ => false
  | p :: t, k => p.1 = k || dmem t k

/-- `list(d.keys())`. -/
def dkeys (m : List (String × String)) : List String := m.map (fun p => p.1)

/-! ### Schema / configuration data model -/

/-- One entry of a schema's `report_fields` (`field_config` dicts in the
Python source; `ftype` is the `'type'` key, defaulting to `'text'`). -/
structure FieldCfg where
  name : String
  ftype : String := "text"
  unit : String := ""
  required : Bool := false
deriving Repr, DecidableEq

/-- One entry of `basic_fields`: a header field with its pattern list. -/
structure BasicField where
  name : String
  required : Bool := false
  patterns : List String
deriving Repr, DecidableEq

/-- A reference range (`reference_ranges` values); only `normalRange` is read
by the code (`_validate_results`), the numeric bounds are carried data. -/
structure RefRange where
  rmin : Option String := none
  rmax : Option String := none
  runit : String := ""
  normalRange : Option String := none
deriving Repr, DecidableEq

/-- `test_type_config`: the slice of the schema dict the parsers read. A
missing `basic_fields` key (`none`) selects the built-in defaults. -/
structure TestTypeConfig where
  parser_module : Option String := none
  parser_class : Option String := none
  basic_fields : Option (List BasicField) := none
  report_fields : List FieldCfg := []
  reference_ranges : List (String × RefRange) := []
deriving Repr

/-! ### `BaseParser._generate_table_patterns` -/

/-- `re.escape(field_name).replace(r'\ ', r'\s*')` — the escaped name with
each (escaped) space turned into `\s*`. -/
def escWsName (field_name : String) : String :=
  strReplace (reEscape field_name) "\\ " "\\s*"

/-- `BaseParser._generate_table_patterns(field_name, unit, field_type)`:
the ordered pattern list for one field (numeric branch: nine priorities;
text branch: two patterns). -/
def generate_table_patterns (field_name unit ftype : String) : List String :=
  let en := escWsName field_name
  let eu := if unit = "" then "" else reEscape unit
  if ftype = "number" || ftype = "decimal" then
    [ en ++ "[^0-9]*?([\\d\\.\\-\\+]+)(?:\\s+[\\d\\.\\-\\+]+\\s*-\\s*[\\d\\.\\-\\+]+)",
      en ++ "[^0-9]*?([\\d\\.\\-\\+]+)\\s*" ++ eu ++ "(?!\\s*-)",
      "\\|\\s*" ++ en ++ "\\s*\\|\\s*([\\d\\.\\-\\+]+)(?!\\s*-)\\s*\\|",
      en ++ "[:\\.]\\s*([\\d\\.\\-\\+]+)(?!\\s*-)\\s*" ++ eu,
      en ++ "\\s+([\\d\\.\\-\\+]+)(?!\\s*-)\\s*" ++ eu,
      en ++ "[^\\n]*\\n[^\\d]*?([\\d\\.\\-\\+]+)(?!\\s*-)",
      en ++ "\\s*\\([^)]*\\)[:\\.]\\s*([\\d\\.\\-\\+]+)(?!\\s*-)",
      en ++ "[^0-9]*?([\\d\\.\\-\\+]+\\s*x?\\s*10[\\*\\^]?[\\d\\-\\+]+)(?!\\s*-)",
      en ++ "[^0-9]*?([\\d\\.\\-\\+]+)(?!\\s*-)" ]
  else
    [ en ++ "[:\\.]\\s*([^\\|\\n\\r]+)",
      "\\|\\s*" ++ en ++ "\\s*\\|\\s*([^\\|\\n\\r]+)\\s*\\|" ]

/-! ### `BaseParser._extract_numeric_value` -/

/-- `BaseParser._extract_numeric_value(text, patterns, unit)`: first pattern
(in order) whose `re.search` with `re.IGNORECASE` succeeds; the stripped
first group, with `unit` appended when `unit` is truthy and not a substring
of the value.  `unit = ""` models the Python `unit=None`/empty default. -/
def extract_numeric_value (text : String) (patterns : List String) (unit : String) : Option String :=
  match patterns with
  | [] => none
  | p :: rest =>
    match reGroup1 true p text with
    | some g =>
      let value := strip g
      some (if unit ≠ "" && !(strIn unit value) then value ++ " " ++ unit else value)
    | none => extract_numeric_value text rest unit

/-- The stripped capture of the first matching pattern, before any unit
handling (used to state what `_extract_numeric_value` does with the unit). -/
def firstCapture (text : String) : List String → Option String
  | [] => none
  | p :: rest =>
    match reGroup1 true p text with
    | some g => some (strip g)
    | none => firstCapture text rest

/-! ### `BaseParser._extract_structured_table` -/

/-- `BaseParser._extract_structured_table(text, field_configs)`: for each
configured field, generate table patterns and keep a truthy extracted
value. -/
def extract_structured_table (text : String) (field_configs : List FieldCfg) :
    List (String × String) :=
  field_configs.foldl
    (fun acc fc =>
      match extract_numeric_value text (generate_table_patterns fc.name fc.unit fc.ftype) fc.unit with
      | some v => if v ≠ "" then dset acc fc.name v else acc
      | none => acc)
    []

/-! ### `GenericParser._generate_numeric_patterns` / `_generate_text_patterns` -/

/-- `GenericParser._generate_numeric_patterns(field_name, unit)`: note the
field name is embedded with only `' ' → '\s*'`, without `re.escape`. -/
def generate_numeric_patterns (field_name unit : String) : List String :=
  let en := strReplace field_name " " "\\s*"
  let eu := if unit = "" then "" else strReplace unit "/" "[/\\s]*"
  [ en ++ "[:.\\s]*([\\d\\.]+\\s*" ++ eu ++ ")",
    en ++ "\\s*([\\d\\.]+)",
    en ++ "[:.\\s]*([\\d\\.]+\\s*x?\\s*10[\\*\\^]?\\d+\\s*" ++ eu ++ ")" ]

/-- `GenericParser._generate_text_patterns(field_name)`. -/
def generate_text_patterns (field_name : String) : List String :=
  let en := strReplace field_name " " "\\s*"
  [ en ++ "[:.\\s]*([^\\n\\r]+)",
    en ++ "\\s*[:.]?\\s*([A-Za-z\\s]+)" ]

/-- `GenericParser._extract_text_value(patterns)`: stripped first group of
the first matching pattern. -/
def extract_text_value (text : String) (patterns : List String) : Option String :=
  match patterns with
  | [] => none
  | p :: rest =>
    match reGroup1 true p text with
    | some g => some (strip g)
    | none => extract_text_value text rest

end MediLink

namespace MediLink

/-! ### `BaseParser._extract_tabular_data` -/

/-- The acceptance condition at window line `j` for a marker found at line
`i`: `j > i or marker.lower() not in lines[j].lower()`. -/
def tabAccept (lines : List String) (marker : String) (i j : Nat) : Bool :=
  decide (j > i) || !(strIn (lowerStr marker) (lowerStr (lines.getD j "")))

/-- Inner pattern loop of `_extract_tabular_data` at window line `j`
(`re.search` without flags): on a match that passes `tabAccept`, record
`group(1)` and stop; otherwise keep trying patterns. -/
def tabPatLoop (lines : List String) (marker param : String) (i j : Nat)
    (acc : List (String × String)) : List String → List (String × String)
  | [] => acc
  | p :: rest =>
    match reGroup1 false p (lines.getD j "") with
    | some g =>
      if tabAccept lines marker i j then dset acc param g
      else tabPatLoop lines marker param i j acc rest
    | none => tabPatLoop lines marker param i j acc rest

/-- `value_patterns.get(param_name, [r'([\d\.]+)'])`. -/
def vpFor (value_patterns : List (String × List String)) (param : String) : List String :=
  match value_patterns.find? (fun p => p.1 = param) with
  | some p => p.2
  | none => ["([\\d\\.]+)"]

/-- Window loop of `_extract_tabular_data`: lines `j` with
`i ≤ j < min (i+3) lines.length`, stopping once `param` is present. -/
def tabWindow (lines : List String) (vps : List (String × List String))
    (marker param : String) (i : Nat) (acc : List (String × String)) :
    List Nat → List (String × String)
  | [] => acc
  | j :: rest =>
    if dmem (tabPatLoop lines marker param i j acc (vpFor vps param)) param then
      tabPatLoop lines marker param i j acc (vpFor vps param)
    else
      tabWindow lines vps marker param i
        (tabPatLoop lines marker param i j acc (vpFor vps param)) rest

/-- One line of `_extract_tabular_data`: skip blank (stripped) lines; take the
first marker whose lowercase form is a substring of the lowercased stripped
line (the loop `break`s after that marker) and run the window. -/
def tabLineStep (lines : List String) (markers : List (String × String))
    (vps : List (String × List String)) (acc : List (String × String)) (i : Nat) :
    List (String × String) :=
  if strip (lines.getD i "") = "" then acc
  else
    match markers.find?
        (fun mk => strIn (lowerStr mk.1) (lowerStr (strip (lines.getD i "")))) with
    | some (marker, param) =>
      tabWindow lines vps marker param i acc (List.range' i (min (i + 3) lines.length - i))
    | none => acc

/-- `_extract_tabular_data` after processing the first `n` lines. -/
def extract_tabular_upto (lines : List String) (markers : List (String × String))
    (vps : List (String × List String)) (n : Nat) : List (String × String) :=
  (List.range n).foldl (tabLineStep lines markers vps) []

/-- `BaseParser._extract_tabular_data(lines, start_markers, value_patterns)`. -/
def extract_tabular_data (lines : List String) (markers : List (String × String))
    (vps : List (String × List String)) : List (String × String) :=
  extract_tabular_upto lines markers vps lines.length

/-! ### `BaseParser._extract_table_rows` -/

/-- `re.sub(r'[^\w\s\(\)]', '', s)`: drop every character outside
`\w`, `\s`, `(`, `)`. -/
def cleanName (s : String) : String :=
  ⟨s.data.filter (fun c => c.isAlphanum || c = '_' || pyWs c || c = '(' || c = ')')⟩

def tableRowsPatterns : List String :=
  [ "([A-Za-z\\s\\(\\)]+?)\\s*\\|\\s*([\\d\\.\\-\\+]+)\\s*\\|\\s*([\\d\\.\\-\\+\\s\\<\\>]+)\\s*\\|\\s*([A-Za-z/%]+)\\s*\\|\\s*([A-Z]+)",
    "([A-Za-z\\s\\(\\)]+?)\\s+([\\d\\.\\-\\+]+)\\s+([\\d\\.\\-\\+\\s\\<\\>]+)\\s+([A-Za-z/%]+)\\s+([A-Z]+)",
    "([A-Za-z\\s\\(\\)]+?)[:\\.]\\s*([\\d\\.\\-\\+]+)\\s*([A-Za-z/%]*)",
    "(TSH|Free\\s*T[34]|T[34][:T]*\\s*Ratio|T[34]\\s*Index)\\s*[:\\|\\s]\\s*([\\d\\.\\-\\+]+)\\s*([A-Za-z/%]*)",
    "([A-Za-z\\s\\(\\)]+?)\\s+([\\d\\.\\-\\+]+)\\s*\\(([A-Za-z/%]+)\\)" ]

def tableRowsStop : List String := ["test", "result", "reference", "units", "status"]

/-- Process one `finditer` match of one table pattern of
`_extract_table_rows`. -/
def tableRowMatch (line : String) (acc : List (String × String)) (m : MRes) :
    List (String × String) :=
  let param0 := strip ((mGroup line m 1).getD "")
  let value := strip ((mGroup line m 2).getD "")
  let unit := strip ((mGroup line m 3).getD "")
  let param := strip (cleanName param0)
  if param.length < 2 || (lowerStr param) ∈ tableRowsStop then acc
  else
    let full := if unit ≠ "" && !(strIn unit value) then value ++ " " ++ unit else value
    dset acc param full

/-- `BaseParser._extract_table_rows(text)`: every pattern, every `finditer`
match, over every stripped line of length ≥ 5. -/
def extract_table_rows (text : String) : List (String × String) :=
  (splitNl text).foldl
    (fun acc line0 =>
      let line := strip line0
      if line = "" || line.length < 5 then acc
      else
        tableRowsPatterns.foldl
          (fun acc2 p => (reFinditer true p line).foldl (tableRowMatch line) acc2)
          acc)
    []

/-! ### `GenericParser._extract_basic_patterns` -/

def basicPatterns : List String :=
  [ "([A-Za-z][A-Za-z\\s]\x7b2,25\x7d)[:\\.]\\s*([\\d\\.\\-\\+]+(?:\\s*x?\\s*10[\\*\\^]?[\\d\\-\\+]*)?)\\s*([A-Za-z/%\\^\\*\\s]\x7b0,15\x7d)",
    "([A-Za-z\\s]+)\\s*\\([A-Za-z0-9]+\\)[:\\.]\\s*([\\d\\.\\-\\+]+)",
    "([A-Z][A-Za-z]\x7b2,15\x7d)[:\\.]\\s*([\\d\\.\\-\\+]+)" ]

def basicStop : List String :=
  ["test", "result", "reference", "units", "status", "normal", "report", "date", "page"]

/-- Process one `finditer` match of one pattern of `_extract_basic_patterns`:
clean and filter the name, skip keys already present, unit-append when the
unit is truthy, absent from the value, and shorter than 10. -/
def basicPatternMatch (text : String) (acc : List (String × String)) (m : MRes) :
    List (String × String) :=
  let name0 := strip ((mGroup text m 1).getD "")
  let value := strip ((mGroup text m 2).getD "")
  let unit := strip ((mGroup text m 3).getD "")
  let name := strip (cleanName name0)
  if name.length < 3 || name.length > 30 || (lowerStr name) ∈ basicStop then acc
  else if dmem acc name then acc
  else
    let full := if unit ≠ "" && !(strIn unit value) && unit.length < 10 then
                  value ++ " " ++ unit
                else value
    dset acc name full

/-- `GenericParser._extract_basic_patterns()` acting on the running
`report_data`. -/
def extract_basic_patterns (text : String) (m0 : List (String × String)) :
    List (String × String) :=
  basicPatterns.foldl
    (fun acc p => (reFinditer true p text).foldl (basicPatternMatch text) acc)
    m0

end MediLink

namespace MediLink

/-! ### `BaseParser._extract_basic_information` (header pass) -/

/-- `BaseParser._get_default_basic_fields()`. -/
def defaultBasicFields : List BasicField :=
  [ { name := "Patient", required := true,
      patterns := [ "Patient:\\s*(.+)", "Patient\\s*Name:\\s*(.+)", "Name:\\s*(.+)" ] },
    { name := "Date", required := true,
      patterns := [ "Date:\\s*(.+)", "Collection\\s*Date:\\s*(.+)", "Report\\s*Date:\\s*(.+)" ] },
    { name := "Doctor", required := false,
      patterns := [ "Doctor:\\s*(.+)", "Ordering\\s*Physician:\\s*(.+)", "Physician:\\s*(.+)" ] },
    { name := "Laboratory", required := true,
      patterns := [ "Laboratory:\\s*(.+)", "Lab:\\s*(.+)", "CENTRAL\\s*MEDICAL\\s*LABORATORY" ] } ]

/-- First pattern of the list whose `re.search` (IGNORECASE) succeeds,
with its match. -/
def firstPatMatch (text : String) : List String → Option (String × MRes)
  | [] => none
  | p :: rest =>
    match reSearch true p text with
    | some m => some (p, m)
    | none => firstPatMatch text rest

/-- The loop body of `_extract_basic_information` for one basic field: value
is the stripped `group(1)` when the pattern has a matched group, else the
stripped whole match (`group(0)`); a `Laboratory` field matched by a pattern
containing `'CENTRAL'` stores the fixed literal instead. -/
def headerFieldValue (text : String) (bf : BasicField) : Option String :=
  (firstPatMatch text bf.patterns).map fun pm =>
    let value :=
      match mGroup text pm.2 1 with
      | some g => strip g
      | none => strip ((mGroup text pm.2 0).getD "")
    if bf.name = "Laboratory" && strIn "CENTRAL" pm.1 then
      "Central Medical Laboratory"
    else value

/-- `BaseParser._extract_basic_information()` over `basic_fields`. -/
def extract_basic_information (text : String) (bfs : List BasicField)
    (m0 : List (String × String)) : List (String × String) :=
  bfs.foldl
    (fun m bf =>
      match headerFieldValue text bf with
      | some v => dset m bf.name v
      | none => m)
    m0

/-! ### `BaseParser._validate_results` -/

/-- `BaseParser._validate_results()`: walks `report_data.items()` and, for
every key present in `reference_ranges`, emits a diagnostic line; it writes
nothing back into `report_data`.  The first component is the (rebuilt)
mapping, the second the emitted diagnostics. -/
def validate_results (ranges : List (String × RefRange)) :
    List (String × String) → List (String × String) × List String
  | [] => ([], [])
  | (k, v) :: rest =>
    let r := validate_results ranges rest
    ((k, v) :: r.1,
     (match ranges.find? (fun p => p.1 = k) with
      | some rc =>
        [" Validated " ++ k ++ ": " ++ v ++ " (Range: " ++
          (rc.2.normalRange.getD "N/A") ++ ")"]
      | none => []) ++ r.2)

/-! ### `GenericParser._detect_and_extract_content` and its pattern tables -/

def thyroidPatternsD : List (String × List String) := [
  ("TSH",
    [ "TSH[:\\|\\s]*([\\d\\.\\-\\+]+)\\s*mIU/L",
      "Thyroid\\s*Stimulating\\s*Hormone[:\\|\\s]*([\\d\\.\\-\\+]+)",
      "\\|\\s*TSH\\s*\\|\\s*([\\d\\.\\-\\+]+)\\s*\\|",
      "TSH.*?([\\d\\.\\-\\+]+)" ]),
  ("Free T4",
    [ "Free\\s*T4[:\\|\\s]*([\\d\\.\\-\\+]+)\\s*ng/dL",
      "Free\\s*Thyroxine[:\\|\\s]*([\\d\\.\\-\\+]+)",
      "\\|\\s*Free\\s*T4\\s*\\|\\s*([\\d\\.\\-\\+]+)\\s*\\|",
      "Free\\s*T4.*?([\\d\\.\\-\\+]+)" ]),
  ("Free T3",
    [ "Free\\s*T3[:\\|\\s]*([\\d\\.\\-\\+]+)\\s*pg/mL",
      "Free\\s*Triiodothyronine[:\\|\\s]*([\\d\\.\\-\\+]+)",
      "\\|\\s*Free\\s*T3\\s*\\|\\s*([\\d\\.\\-\\+]+)\\s*\\|",
      "Free\\s*T3.*?([\\d\\.\\-\\+]+)" ]),
  ("T4:T3 Ratio",
    [ "T4[:T]*\\s*T3\\s*Ratio[:\\|\\s]*([\\d\\.\\-\\+]+)",
      "T4/T3[:\\|\\s]*([\\d\\.\\-\\+]+)",
      "\\|\\s*T4:T3\\s*Ratio\\s*\\|\\s*([\\d\\.\\-\\+]+)\\s*\\|" ]),
  ("Free T4 Index",
    [ "Free\\s*T4\\s*Index[:\\|\\s]*([\\d\\.\\-\\+]+)",
      "FTI[:\\|\\s]*([\\d\\.\\-\\+]+)",
      "\\|\\s*Free\\s*T4\\s*Index\\s*\\|\\s*([\\d\\.\\-\\+]+)\\s*\\|" ])
]
def fbcPatternsD : List (String × List String) := [
  ("RBC",
    [ "RBC[:.\\s]*([\\d\\.]+\\s*x?\\s*10[\\*\\^]?12[/L]*)",
      "Red\\s*Blood\\s*Cells?[:.\\s]*([\\d\\.]+)" ]),
  ("Hemoglobin",
    [ "H[ae]moglobin[:.\\s]*([\\d\\.]+\\s*g/dL)",
      "Hb[:.\\s]*([\\d\\.]+)" ]),
  ("Hematocrit",
    [ "H[ae]matocrit[:.\\s]*([\\d\\.]+\\s*%)",
      "Hct[:.\\s]*([\\d\\.]+)" ]),
  ("WBC",
    [ "WBC[:.\\s]*([\\d\\.]+\\s*x?\\s*10[\\*\\^]?9[/L]*)",
      "White\\s*Blood\\s*Cells?[:.\\s]*([\\d\\.]+)" ]),
  ("Platelets",
    [ "Platelets?[:.\\s]*([\\d\\.]+\\s*x?\\s*10[\\*\\^]?9[/L]*)",
      "PLT[:.\\s]*([\\d\\.]+)" ]),
  ("MCV",
    [ "MCV[:.\\s]*([\\d\\.]+\\s*fL)",
      "Mean\\s*Cell\\s*Volume[:.\\s]*([\\d\\.]+)" ]),
  ("MCH",
    [ "MCH[:.\\s]*([\\d\\.]+\\s*pg)",
      "Mean\\s*Cell\\s*Hemoglobin[:.\\s]*([\\d\\.]+)" ]),
  ("MCHC",
    [ "MCHC[:.\\s]*([\\d\\.]+\\s*g/dL)",
      "Mean\\s*Cell\\s*Hemoglobin\\s*Concentration[:.\\s]*([\\d\\.]+)" ])
]
def labPatternsD : List (String × List String) := [
  ("Glucose",
    [ "Glucose[:.\\s]*([\\d\\.]+\\s*mg/dL)",
      "Blood\\s*Sugar[:.\\s]*([\\d\\.]+)" ]),
  ("Cholesterol",
    [ "Cholesterol[:.\\s]*([\\d\\.]+\\s*mg/dL)",
      "Total\\s*Cholesterol[:.\\s]*([\\d\\.]+)" ]),
  ("Creatinine",
    [ "Creatinine[:.\\s]*([\\d\\.]+\\s*mg/dL)",
      "Creat[:.\\s]*([\\d\\.]+)" ]),
  ("BUN",
    [ "BUN[:.\\s]*([\\d\\.]+\\s*mg/dL)",
      "Blood\\s*Urea\\s*Nitrogen[:.\\s]*([\\d\\.]+)" ])
]

def thyroidKeywords : List String :=
  ["thyroid function", "tsh", "free t4", "free t3", "endocrine"]

def fbcKeywords : List String :=
  ["full blood count", "complete blood count", "fbc", "cbc", "hemoglobin", "hematocrit"]

def labKeywords : List String :=
  ["cholesterol", "glucose", "creatinine", "urea"]

/-- The category extractors `_extract_thyroid_patterns` /
`_extract_fbc_patterns` / `_extract_lab_patterns` share this loop:
`_extract_numeric_value(text, patterns)` with no unit, truthy values
assigned (unconditionally) into `report_data`. -/
def extractPatternDict (text : String) (d : List (String × List String))
    (m0 : List (String × String)) : List (String × String) :=
  d.foldl
    (fun m kv =>
      match extract_numeric_value text kv.2 "" with
      | some v => if v ≠ "" then dset m kv.1 v else m
      | none => m)
    m0

/-- `GenericParser._extract_enhanced_table_data()`: merge `_extract_table_rows`
output (unconditionally), then fall back to `_extract_basic_patterns` only
when the table scan produced nothing. -/
def extract_enhanced_table_data (text : String) (m0 : List (String × String)) :
    List (String × String) :=
  if extract_table_rows text = [] then
    extract_basic_patterns text
      ((extract_table_rows text).foldl (fun m p => dset m p.1 p.2) m0)
  else
    (extract_table_rows text).foldl (fun m p => dset m p.1 p.2) m0

/-- `GenericParser._detect_and_extract_content()`: keyword categories in
fixed priority order, else the enhanced table scan. -/
def detect_and_extract_content (text : String) (m0 : List (String × String)) :
    List (String × String) :=
  if thyroidKeywords.any (fun kw => strIn kw (lowerStr text)) then
    extractPatternDict text thyroidPatternsD m0
  else if fbcKeywords.any (fun kw => strIn kw (lowerStr text)) then
    extractPatternDict text fbcPatternsD m0
  else if labKeywords.any (fun kw => strIn kw (lowerStr text)) then
    extractPatternDict text labPatternsD m0
  else
    extract_enhanced_table_data text m0

/-- `GenericParser._extract_test_specific_data()`: content detection when no
fields are configured, else the per-field numeric/text extraction (values
assigned unconditionally). -/
def generic_test_specific (text : String) (cfg : TestTypeConfig)
    (m0 : List (String × String)) : List (String × String) :=
  if cfg.report_fields.length = 0 then detect_and_extract_content text m0
  else
    cfg.report_fields.foldl
      (fun m fc =>
        match
          (if fc.ftype = "number" || fc.ftype = "decimal" then
            extract_numeric_value text (generate_numeric_patterns fc.name fc.unit) fc.unit
          else
            extract_text_value text (generate_text_patterns fc.name)) with
        | some v => if v ≠ "" then dset m fc.name v else m
        | none => m)
      m0

/-- `GenericParser.parse()`: header pass, body pass, validation. -/
def generic_parse (text : String) (cfg : TestTypeConfig) : List (String × String) :=
  (validate_results cfg.reference_ranges
    (generic_test_specific text cfg
      (extract_basic_information text (cfg.basic_fields.getD defaultBasicFields) []))).1

end MediLink

namespace MediLink

/-! ### `LabReportParser` -/

def labThyroidTableD : List (String × List String) := [
  ("TSH",
    [ "(?:TSH|Thyroid\\s*Stimulating\\s*Hormone)[^0-9]*?([\\d\\.\\-\\+]+)(?:\\s+[\\d\\.\\-\\+]+\\s*-\\s*[\\d\\.\\-\\+]+)",
      "TSH[:\\|\\s]*([\\d\\.\\-\\+]+)(?!\\s*-)\\s*(?:mIU/L|Î¼IU/mL|uIU/mL)?",
      "Thyroid\\s*Stimulating\\s*Hormone[:\\|\\s]*([\\d\\.\\-\\+]+)(?!\\s*-)",
      "\\|\\s*TSH\\s*\\|\\s*([\\d\\.\\-\\+]+)(?!\\s*-)\\s*\\|",
      "(?:TSH|Thyroid\\s*Stimulating\\s*Hormone)[^\\n]*\\n[^\\d]*?([\\d\\.\\-\\+]+)(?!\\s*-)",
      "TSH.*?([\\d\\.\\-\\+]+)(?!\\s*-)" ]),
  ("Free T4",
    [ "(?:Free\\s*T4|Free\\s*Thyroxine)[^0-9]*?([\\d\\.\\-\\+]+)(?:\\s+[\\d\\.\\-\\+]+\\s*-\\s*[\\d\\.\\-\\+]+)",
      "Free\\s*T4[:\\|\\s]*([\\d\\.\\-\\+]+)(?!\\s*-)\\s*(?:ng/dL|pmol/L|ng/dl)?",
      "Free\\s*Thyroxine[:\\|\\s]*([\\d\\.\\-\\+]+)(?!\\s*-)",
      "\\|\\s*Free\\s*T4\\s*\\|\\s*([\\d\\.\\-\\+]+)(?!\\s*-)\\s*\\|",
      "(?:Free\\s*T4|Free\\s*Thyroxine)[^\\n]*\\n[^\\d]*?([\\d\\.\\-\\+]+)(?!\\s*-)",
      "Free\\s*T4.*?([\\d\\.\\-\\+]+)(?!\\s*-)" ]),
  ("Free T3",
    [ "(?:Free\\s*T3|Free\\s*Triiodothyronine)[^0-9]*?([\\d\\.\\-\\+]+)(?:\\s+[\\d\\.\\-\\+]+\\s*-\\s*[\\d\\.\\-\\+]+)",
      "Free\\s*T3[:\\|\\s]*([\\d\\.\\-\\+]+)(?!\\s*-)\\s*(?:pg/mL|pmol/L)?",
      "Free\\s*Triiodothyronine[:\\|\\s]*([\\d\\.\\-\\+]+)(?!\\s*-)",
      "\\|\\s*Free\\s*T3\\s*\\|\\s*([\\d\\.\\-\\+]+)(?!\\s*-)\\s*\\|",
      "(?:Free\\s*T3|Free\\s*Triiodothyronine)[^\\n]*\\n[^\\d]*?([\\d\\.\\-\\+]+)(?!\\s*-)",
      "Free\\s*T3.*?([\\d\\.\\-\\+]+)(?!\\s*-)" ]),
  ("T4:T3 Ratio",
    [ "T4[:T]*\\s*T3\\s*Ratio[:\\|\\s]*([\\d\\.\\-\\+]+)(?!\\s*-)",
      "T4/T3[:\\|\\s]*([\\d\\.\\-\\+]+)(?!\\s*-)",
      "\\|\\s*T4:T3\\s*Ratio\\s*\\|\\s*([\\d\\.\\-\\+]+)(?!\\s*-)\\s*\\|",
      "T4[:T]*\\s*T3\\s*Ratio[^\\n]*\\n[^\\d]*?([\\d\\.\\-\\+]+)(?!\\s*-)",
      "T4[:T]*\\s*T3\\s*Ratio.*?([\\d\\.\\-\\+]+)(?!\\s*-)" ]),
  ("Free T4 Index",
    [ "Free\\s*T4\\s*Index[:\\|\\s]*([\\d\\.\\-\\+]+)(?!\\s*-)",
      "FTI[:\\|\\s]*([\\d\\.\\-\\+]+)(?!\\s*-)",
      "\\|\\s*Free\\s*T4\\s*Index\\s*\\|\\s*([\\d\\.\\-\\+]+)(?!\\s*-)\\s*\\|",
      "Free\\s*T4\\s*Index[^\\n]*\\n[^\\d]*?([\\d\\.\\-\\+]+)(?!\\s*-)",
      "Free\\s*T4\\s*Index.*?([\\d\\.\\-\\+]+)(?!\\s*-)" ])
]

/-- `LabReportParser._generate_lab_field_patterns_enhanced(field_name, unit)`
(up to its first `return`; the code after it is unreachable). -/
def generate_lab_field_patterns_enhanced (field_name unit : String) : List String :=
  let en := escWsName field_name
  let eu := if unit = "" then "" else reEscape unit
  let base :=
    [ "\\|\\s*" ++ en ++ "\\s*\\|\\s*([\\d\\.\\-\\+]+)\\s*\\|",
      en ++ "[:\\s]*([\\d\\.\\-\\+]+\\s*" ++ eu ++ ")",
      en ++ "[:\\s]*([\\d\\.\\-\\+]+)",
      en ++ "\\s*\\([^)]*\\)[:\\s]*([\\d\\.\\-\\+]+)",
      en ++ "\\s+([\\d\\.\\-\\+]+)\\s*" ++ eu,
      en ++ "[:\\s]*([\\d\\.\\-\\+]+\\s*x?\\s*10[\\*\\^]?[\\d\\-\\+]*)" ]
  let fl := lowerStr field_name
  if strIn "tsh" fl then
    base ++ [ "TSH[:\\|\\s]*([\\d\\.\\-\\+]+)",
              "Thyroid\\s*Stimulating\\s*Hormone[:\\|\\s]*([\\d\\.\\-\\+]+)" ]
  else if strIn "free t4" fl || strIn "t4" fl then
    base ++ [ "Free\\s*T4[:\\|\\s]*([\\d\\.\\-\\+]+)",
              "Free\\s*Thyroxine[:\\|\\s]*([\\d\\.\\-\\+]+)" ]
  else if strIn "free t3" fl || strIn "t3" fl then
    base ++ [ "Free\\s*T3[:\\|\\s]*([\\d\\.\\-\\+]+)",
              "Free\\s*Triiodothyronine[:\\|\\s]*([\\d\\.\\-\\+]+)" ]
  else base

/-- `LabReportParser._extract_configured_fields_enhanced(report_fields)`:
structured-table pass first (copied into `report_data`), then per-field
patterns only for fields not already present. -/
def extract_configured_fields_enhanced (text : String) (report_fields : List FieldCfg)
    (m0 : List (String × String)) : List (String × String) :=
  report_fields.foldl
    (fun m fc =>
      if dmem m fc.name then m
      else
        match extract_numeric_value text
                (generate_lab_field_patterns_enhanced fc.name fc.unit) fc.unit with
        | some v => if v ≠ "" then dset m fc.name v else m
        | none => m)
    ((extract_structured_table text report_fields).foldl
      (fun m p => dset m p.1 p.2) m0)

/-- `LabReportParser._extract_table_data_enhanced()`: `_extract_table_rows`
merged without overwriting, then the thyroid table dictionary, each field
only when not already present. -/
def extract_table_data_enhanced (text : String) (m0 : List (String × String)) :
    List (String × String) :=
  labThyroidTableD.foldl
    (fun m kv =>
      if dmem m kv.1 then m
      else
        match extract_numeric_value text kv.2 "" with
        | some v => if v ≠ "" then dset m kv.1 v else m
        | none => m)
    ((extract_table_rows text).foldl
      (fun m p => if dmem m p.1 then m else dset m p.1 p.2) m0)

/-- The hardcoded single-pattern fallbacks of
`LabReportParser._extract_default_lab_parameters`. -/
def defaultLabParams : List (String × String) :=
  [ ("Blood_Pressure", "Blood\\s*Pressure[:\\s]*(\\d+[/\\\\]\\d+)"),
    ("Heart_Rate", "Heart\\s*Rate[:\\s]*(\\d+)"),
    ("Temperature", "Temperature[:\\s]*(\\d+\\.?\\d*)"),
    ("Cholesterol", "Cholesterol[:\\s]*(\\d+\\.?\\d*\\s*mg/dL)"),
    ("Glucose", "Glucose[:\\s]*(\\d+\\.?\\d*\\s*mg/dL)"),
    ("Hemoglobin", "Hemoglobin[:\\s]*(\\d+\\.?\\d*\\s*g/dL)"),
    ("Sodium", "Sodium[:\\s]*(\\d+\\.?\\d*\\s*mEq/L)"),
    ("Potassium", "Potassium[:\\s]*(\\d+\\.?\\d*\\s*mEq/L)"),
    ("Creatinine", "Creatinine[:\\s]*(\\d+\\.?\\d*\\s*mg/dL)"),
    ("BUN", "BUN[:\\s]*(\\d+\\.?\\d*\\s*mg/dL)"),
    ("ALT", "ALT[:\\s]*(\\d+\\.?\\d*\\s*U/L)"),
    ("AST", "AST[:\\s]*(\\d+\\.?\\d*\\s*U/L)"),
    ("TSH", "TSH[:\\s]*(\\d+\\.?\\d*\\s*mIU/L)"),
    ("LDL", "LDL[:\\s]*(\\d+\\.?\\d*\\s*mg/dL)"),
    ("HDL", "HDL[:\\s]*(\\d+\\.?\\d*\\s*mg/dL)"),
    ("Triglycerides", "Triglycerides[:\\s]*(\\d+\\.?\\d*\\s*mg/dL)") ]

/-- `LabReportParser._extract_default_lab_parameters()`. -/
def extract_default_lab_parameters (text : String) (m0 : List (String × String)) :
    List (String × String) :=
  defaultLabParams.foldl
    (fun m kp =>
      match reGroup1 true kp.2 text with
      | some g => dset m kp.1 (strip g)
      | none => m)
    m0

def headerNames : List String := ["Patient", "Date", "Doctor", "Laboratory"]

/-- The fallback condition at the end of
`LabReportParser._extract_test_specific_data()`: when fewer than half of the
configured fields are present among non-header keys
(`count < len(report_fields) / 2`), run the enhanced table extraction. -/
def lab_fallback_gate (text : String) (cfg : TestTypeConfig)
    (m1 : List (String × String)) : List (String × String) :=
  if 2 * ((dkeys m1).filter (fun k => !(headerNames.contains k))).length <
      cfg.report_fields.length then
    extract_table_data_enhanced text m1
  else m1

/-- `LabReportParser._extract_test_specific_data()`: configured or default
extraction, then the enhanced table fallback when fewer than half of the
configured fields are present among non-header keys. -/
def lab_test_specific (text : String) (cfg : TestTypeConfig)
    (m0 : List (String × String)) : List (String × String) :=
  lab_fallback_gate text cfg
    (if cfg.report_fields.length ≠ 0 then
      extract_configured_fields_enhanced text cfg.report_fields m0
    else
      extract_default_lab_parameters text m0)

/-- `LabReportParser.parse()`. -/
def lab_parse (text : String) (cfg : TestTypeConfig) : List (String × String) :=
  (validate_results cfg.reference_ranges
    (lab_test_specific text cfg
      (extract_basic_information text (cfg.basic_fields.getD defaultBasicFields) []))).1

/-! ### `FBCReportParser._extract_default_fbc_parameters` -/

def bloodParamsD : List (String × List String × String) := [
  ("RBC",
    [ "RBC[:.\\s]*([\\d\\.]+\\s*x?\\s*10[\\*\\^]?\\d+[/\\s]*L)",
      "Red\\s*Blood\\s*Cell\\s*Count\\s*\\(RBC\\)[:.\\s]*([\\d\\.]+)",
      "RBC\\s*([\\d\\.]+)" ], "x 10^12/L"),
  ("Hemoglobin",
    [ "Hemoglobin[:.\\s]*([\\d\\.]+\\s*g[/\\s]*dL)",
      "Hb[:.\\s]*([\\d\\.]+\\s*g[/\\s]*dL)",
      "Hemoglobin\\s*\\(Hb\\)[:.\\s]*([\\d\\.]+)" ], "g/dL"),
  ("Hematocrit",
    [ "Hematocrit[:.\\s]*([\\d\\.]+\\s*%)",
      "Hct[:.\\s]*([\\d\\.]+\\s*%)",
      "Hematocrit\\s*\\(Hct\\)[:.\\s]*([\\d\\.]+)" ], "%"),
  ("MCV",
    [ "MCV[:.\\s]*([\\d\\.]+\\s*fL)",
      "MCV\\s*([\\d\\.]+)",
      "Mean\\s*Cell\\s*Volume\\s*\\(MCV\\)[:.\\s]*([\\d\\.]+)" ], "fL"),
  ("MCH",
    [ "MCH[:.\\s]*([\\d\\.]+\\s*pg)",
      "MCH\\s*([\\d\\.]+)",
      "Mean\\s*Cell\\s*Hemoglobin\\s*\\(MCH\\)[:.\\s]*([\\d\\.]+)" ], "pg"),
  ("MCHC",
    [ "MCHC[:.\\s]*([\\d\\.]+\\s*g[/\\s]*dL)",
      "MCHC\\s*([\\d\\.]+)",
      "Mean\\s*Cell\\s*Hemoglobin\\s*Concentration\\s*\\(MCHC\\)[:.\\s]*([\\d\\.]+)" ], "g/dL"),
  ("WBC",
    [ "WBC[:.\\s]*([\\d\\.]+\\s*x?\\s*10[^\\s]*[/\\s]*L)",
      "White\\s*Blood\\s*Cell\\s*Count\\s*\\(WBC\\)[:.\\s]*([\\d\\.]+)",
      "WBC\\s*([\\d\\.]+)" ], "x 10^9/L"),
  ("Neutrophils",
    [ "Neutrophils[:.\\s]*([\\d\\.]+\\s*%)",
      "Neutrophils\\s*([\\d\\.]+)" ], "%"),
  ("Lymphocytes",
    [ "Lymphocytes[:.\\s]*([\\d\\.]+\\s*%)",
      "Lymphocytes\\s*([\\d\\.]+)" ], "%"),
  ("Monocytes",
    [ "Monocytes[:.\\s]*([\\d\\.]+\\s*%)",
      "Monocytes\\s*([\\d\\.]+)" ], "%"),
  ("Eosinophils",
    [ "Eosinophils[:.\\s]*([\\d\\.]+\\s*%)",
      "Eosinophils\\s*([\\d\\.]+)" ], "%"),
  ("Basophils",
    [ "Basophils[:.\\s]*([\\d\\.]+\\s*%)",
      "Basophils\\s*([\\d\\.]+)" ], "%"),
  ("Platelets",
    [ "Platelets[:.\\s]*([\\d\\.]+\\s*x?\\s*10[\\*\\^]?\\d+[/\\s]*L)",
      "Platelet\\s*Count[:.\\s]*([\\d\\.]+)",
      "Platelets\\s*([\\d\\.]+)" ], "x 10^9/L"),
  ("MPV",
    [ "MPV[:.\\s]*([\\d\\.]+\\s*fL)",
      "MPV\\s*([\\d\\.]+)" ], "fL"),
  ("ESR",
    [ "ESR[:.\\s]*([\\d\\.]+\\s*mm[/\\s]*hr)",
      "ESR\\s*([\\d\\.]+)" ], "mm/hr")
]

def fbcUnitMarkers : List String := ["x", "10", "%", "g/dL", "fL", "pg", "mm/hr"]

/-- The per-parameter loop of `_extract_default_fbc_parameters`: first
matching pattern wins; the unit is appended only when it is not a substring
of the value AND none of the marker strings occurs in the value. -/
def fbcParamValue (text : String) (unit : String) : List String → Option String
  | [] => none
  | p :: rest =>
    match reGroup1 true p text with
    | some g =>
      let value := strip g
      if !(strIn unit value) && !(fbcUnitMarkers.any (fun u => strIn u value)) then
        some (value ++ " " ++ unit)
      else some value
    | none => fbcParamValue text unit rest

/-- `FBCReportParser._extract_default_fbc_parameters()`. -/
def extract_default_fbc_parameters (text : String) (m0 : List (String × String)) :
    List (String × String) :=
  bloodParamsD.foldl
    (fun m kv =>
      match fbcParamValue text kv.2.2 kv.2.1 with
      | some v => dset m kv.1 v
      | none => m)
    m0

/-! ### `DynamicParserFactory.create_parser` (strategy resolution) -/

/-- The importable modules of the Python runtime, abstractly: module name to
the list of class names the module defines. -/
structure PyEnv where
  modules : List (String × List String)

/-- The resolved strategy: the generic parser or a named concrete one. -/
inductive ParserChoice where
  | generic
  | specific (pmod pcls : String)
deriving Repr, DecidableEq

/-- The body of the `try:` block: `importlib.import_module` then `getattr`,
as an `Except` whose error is the Python exception name. -/
def import_and_get (env : PyEnv) (pm pc : String) : Except String ParserChoice :=
  match env.modules.find? (fun p => p.1 = pm) with
  | none => Except.error "ImportError"
  | some md =>
    if md.2.contains pc then Except.ok (ParserChoice.specific pm pc)
    else Except.error "AttributeError"

/-- `DynamicParserFactory.create_parser` (fresh factory, empty cache): falsy
module/class ids or any `ImportError`/`AttributeError` yield the generic
parser; resolution failure is never re-raised. -/
def create_parser_choice (env : PyEnv) (pm pc : Option String) : ParserChoice :=
  match pm, pc with
  | some m, some c =>
    if m = "" || c = "" then ParserChoice.generic
    else
      match import_and_get env m c with
      | Except.ok p => p
      | Except.error _ => ParserChoice.generic
  | _, _ => ParserChoice.generic

/-- Whether strategy resolution succeeds. -/
def resolves (env : PyEnv) (pm pc : Option String) : Bool :=
  match pm, pc with
  | some m, some c =>
    if m = "" || c = "" then false
    else
      match import_and_get env m c with
      | Except.ok _ => true
      | Except.error _ => false
  | _, _ => false

/-- Dispatch a resolved parser class to its embedded `parse`; parsers other
than the two embedded here (`GenericParser`, `LabReportParser`) are not
modelled and yield `none` (they are unreachable in the theorems below). -/
def dispatchParse (pm pc : String) (text : String) (cfg : TestTypeConfig) :
    Option (List (String × String)) :=
  if pm = "parser_lab_report" && pc = "LabReportParser" then
    some (lab_parse text cfg)
  else none

/-- `create_parser(...).parse()`: the factory call followed by the parse of
the instance it returned. -/
def factory_parse (env : PyEnv) (text : String) (cfg : TestTypeConfig) :
    Option (List (String × String)) :=
  match create_parser_choice env cfg.parser_module cfg.parser_class with
  | ParserChoice.generic => some (generic_parse text cfg)
  | ParserChoice.specific m c => dispatchParse m c text cfg

end MediLink

namespace MediLink

/-! ### Association-list lemmas -/

theorem dlookup_dset_self (m : List (String × String)) (k v : String) :
    dlookup (dset m k v) k = some v := by
  induction m with
  | nil => simp [dset, dlookup]
  | cons p t ih =>
    by_cases h : p.1 = k
    · simp [dset, dlookup, h]
    · simp [dset, dlookup, h, ih]

theorem dlookup_dset_ne (m : List (String × String)) (k v k2 : String) (h : k2 ≠ k) :
    dlookup (dset m k v) k2 = dlookup m k2 := by
  induction m with
  | nil => simp [dset, dlookup, Ne.symm h]
  | cons p t ih =>
    by_cases hp : p.1 = k
    · subst hp
      simp [dset, dlookup, Ne.symm h, fun hh : p.1 = k2 => h hh.symm]
    · simp [dset, dlookup, hp, ih]

theorem dmem_of_dlookup (m : List (String × String)) (k v : String)
    (h : dlookup m k = some v) : dmem m k = true := by
  induction m with
  | nil => simp [dlookup] at h
  | cons p t ih =>
    by_cases hp : p.1 = k
    · simp [dmem, hp]
    · simp [dlookup, hp] at h
      simp [dmem, hp, ih h]

theorem dmem_dset_self (m : List (String × String)) (k v : String) :
    dmem (dset m k v) k = true := by
  induction m with
  | nil => simp [dset, dmem]
  | cons p t ih =>
    by_cases h : p.1 = k
    · simp [dset, dmem, h]
    · simp [dset, dmem, h, ih]

theorem mem_dkeys_dset (m : List (String × String)) (k v k2 : String)
    (h : k2 ∈ dkeys (dset m k v)) : k2 = k ∨ k2 ∈ dkeys m := by
  induction m with
  | nil =>
    simp [dset, dkeys] at h
    exact Or.inl h
  | cons p t ih =>
    by_cases hp : p.1 = k
    · simp only [dset, if_pos hp, dkeys, List.map_cons, List.mem_cons] at h
      rcases h with h | h
      · exact Or.inl h
      · right
        simp only [dkeys, List.map_cons, List.mem_cons]
        right
        simpa [dkeys] using h
    · simp only [dset, if_neg hp, dkeys, List.map_cons, List.mem_cons] at h
      rcases h with h | h
      · right
        simp only [dkeys, List.map_cons, List.mem_cons]
        exact Or.inl h
      · rcases ih (by simpa [dkeys] using h) with h2 | h2
        · exact Or.inl h2
        · right
          simp only [dkeys, List.map_cons, List.mem_cons]
          right
          simpa [dkeys] using h2

/-- Pairwise-distinct keys (the invariant of embedded Python dicts). -/
def DistinctKeys (m : List (String × String)) : Prop :=
  List.Pairwise (fun a b => a.1 ≠ b.1) m

theorem distinctKeys_nil : DistinctKeys [] := List.Pairwise.nil

theorem mem_dset_elem (t : List (String × String)) (k v : String) (b : String × String)
    (hb : b ∈ dset t k v) : b = (k, v) ∨ b ∈ t := by
  induction t with
  | nil => simpa [dset] using hb
  | cons q s ih =>
    by_cases hq : q.1 = k
    · simp only [dset, if_pos hq, List.mem_cons] at hb
      rcases hb with hb | hb
      · exact Or.inl hb
      · exact Or.inr (List.mem_cons_of_mem _ hb)
    · simp only [dset, if_neg hq, List.mem_cons] at hb
      rcases hb with hb | hb
      · exact Or.inr (hb ▸ List.mem_cons_self _ _)
      · rcases ih hb with h2 | h2
        · exact Or.inl h2
        · exact Or.inr (List.mem_cons_of_mem _ h2)

theorem distinctKeys_dset (m : List (String × String)) (k v : String)
    (h : DistinctKeys m) : DistinctKeys (dset m k v) := by
  induction m with
  | nil => simpa [dset, DistinctKeys] using List.pairwise_singleton _ _
  | cons p t ih =>
    rcases List.pairwise_cons.mp h with ⟨hp, ht⟩
    by_cases hk : p.1 = k
    · simp only [dset, if_pos hk]
      refine List.pairwise_cons.mpr ⟨fun b hb => ?_, ht⟩
      rw [← hk]
      exact hp b hb
    · simp only [dset, if_neg hk]
      refine List.pairwise_cons.mpr ⟨fun b hb => ?_, ih ht⟩
      rcases mem_dset_elem t k v b hb with h2 | h2
      · rw [h2]
        exact hk
      · exact hp b h2

/-- Generic preservation through a `foldl` whose step never disturbs an
existing binding. -/
theorem foldl_preserves {β : Type} (step : List (String × String) → β → List (String × String))
    (hs : ∀ m x k v, dlookup m k = some v → dlookup (step m x) k = some v)
    (xs : List β) : ∀ m k v, dlookup m k = some v → dlookup (xs.foldl step m) k = some v := by
  induction xs with
  | nil => intro m k v h; simpa using h
  | cons x t ih =>
    intro m k v h
    exact ih (step m x) k v (hs m x k v h)

theorem dlookup_foldl_dset_of_ne (t : List (String × String)) :
    ∀ m f v, (∀ q ∈ t, q.1 ≠ f) → dlookup m f = some v →
      dlookup (t.foldl (fun m2 p => dset m2 p.1 p.2) m) f = some v := by
  induction t with
  | nil => intro m f v _ h; simpa using h
  | cons q s ih =>
    intro m f v hq h
    have hne : f ≠ q.1 := fun hh => hq q (List.mem_cons_self _ _) hh.symm
    refine ih (dset m q.1 q.2) f v (fun r hr => hq r (List.mem_cons_of_mem _ hr)) ?_
    rw [dlookup_dset_ne m q.1 q.2 f hne]
    exact h

/-- Folding the entries of a distinct-key dict into another dict installs the
dict's own binding for each of its keys. -/
theorem dlookup_foldl_dset (td : List (String × String)) :
    ∀ m0 f v, DistinctKeys td → dlookup td f = some v →
      dlookup (td.foldl (fun m p => dset m p.1 p.2) m0) f = some v := by
  induction td with
  | nil => intro m0 f v _ h; simp [dlookup] at h
  | cons p t ih =>
    intro m0 f v hd h
    rcases List.pairwise_cons.mp hd with ⟨hp, ht⟩
    by_cases hk : p.1 = f
    · subst hk
      simp only [dlookup, if_pos rfl] at h
      cases h
      exact dlookup_foldl_dset_of_ne t (dset m0 p.1 p.2) p.1 p.2
        (fun q hq => (hp q hq).symm) (dlookup_dset_self m0 p.1 p.2)
    · simp only [dlookup, if_neg hk] at h
      exact ih (dset m0 p.1 p.2) f v ht h

end MediLink

namespace MediLink

/-! ### Substring lemmas -/

theorem containsSub_iff (n : List Char) : ∀ h : List Char, containsSub n h = true ↔ n <:+: h := by
  intro h
  induction h with
  | nil =>
    simp only [containsSub, List.isEmpty_iff, List.infix_nil]
  | cons c t ih =>
    simp only [containsSub, Bool.or_eq_true, List.isPrefixOf_iff_prefix, ih,
      List.infix_cons_iff]

theorem strIn_parts (e pre suf p : String)
    (hp : p.data = pre.data ++ e.data ++ suf.data) : strIn e p = true := by
  unfold strIn
  exact (containsSub_iff e.data p.data).mpr ⟨pre.data, suf.data, hp.symm⟩

theorem strIn_trans_isInfix (x : String) (a b : List Char)
    (hx : containsSub x.data a = true) (hab : a <:+: b) : containsSub x.data b = true :=
  (containsSub_iff x.data b).mpr (((containsSub_iff x.data a).mp hx).trans hab)

theorem stripL_isInfix (l : List Char) : stripL l <:+: l := by
  have h1 : lstripL l <:+ l := List.dropWhile_suffix pyWs
  have h2 : rstripL (lstripL l) <+: lstripL l := by
    unfold rstripL
    have hs : (lstripL l).reverse.dropWhile pyWs <:+ (lstripL l).reverse :=
      List.dropWhile_suffix pyWs
    have := List.reverse_prefix.mpr hs
    simpa using this
  exact (h2.isInfix).trans h1.isInfix

/-- A substring of the lowercased stripped line is a substring of the
lowercased line. -/
theorem strIn_lower_strip (x l : String)
    (h : strIn x (lowerStr (strip l)) = true) : strIn x (lowerStr l) = true := by
  unfold strIn at h ⊢
  have hinf : (lowerStr (strip l)).data <:+: (lowerStr l).data := by
    show (stripL l.data).map lowC <:+: l.data.map lowC
    exact (stripL_isInfix l.data).map lowC
  exact strIn_trans_isInfix x _ _ h hinf

end MediLink

namespace MediLink

/-! ### Lemmas on `_extract_tabular_data` -/

theorem tabPatLoop_of_not_accept (lines : List String) (marker param : String) (i j : Nat)
    (acc : List (String × String)) (hna : tabAccept lines marker i j = false) :
    ∀ ps, tabPatLoop lines marker param i j acc ps = acc := by
  intro ps
  induction ps with
  | nil => rfl
  | cons p rest ih =>
    unfold tabPatLoop
    cases hg : reGroup1 false p (lines.getD j "") with
    | some g =>
      rw [hna]
      simpa using ih
    | none => simpa using ih

theorem tabPatLoop_cases (lines : List String) (marker param : String) (i j : Nat)
    (acc : List (String × String)) :
    ∀ ps, tabPatLoop lines marker param i j acc ps = acc ∨
      ∃ p ∈ ps, ∃ g, reGroup1 false p (lines.getD j "") = some g ∧
        tabAccept lines marker i j = true ∧
        tabPatLoop lines marker param i j acc ps = dset acc param g := by
  intro ps
  induction ps with
  | nil => exact Or.inl rfl
  | cons p rest ih =>
    unfold tabPatLoop
    cases hg : reGroup1 false p (lines.getD j "") with
    | some g =>
      cases ha : tabAccept lines marker i j with
      | true =>
        refine Or.inr ⟨p, List.mem_cons_self _ _, g, hg, rfl, ?_⟩
        simp [ha]
      | false =>
        simp only [ha, Bool.false_eq_true, if_false]
        rcases ih with h | ⟨p2, hp2, g2, hg2, ha2, heq⟩
        · exact Or.inl h
        · rw [ha2] at ha
          cases ha
    | none =>
      rcases ih with h | ⟨p2, hp2, g2, hg2, ha2, heq⟩
      · exact Or.inl h
      · exact Or.inr ⟨p2, List.mem_cons_of_mem _ hp2, g2, hg2, ha2, heq⟩

theorem tabPatLoop_lookup_ne (lines : List String) (marker param : String) (i j : Nat)
    (acc : List (String × String)) (k : String) (hk : k ≠ param) (ps : List String) :
    dlookup (tabPatLoop lines marker param i j acc ps) k = dlookup acc k := by
  rcases tabPatLoop_cases lines marker param i j acc ps with h | ⟨p, _, g, _, _, heq⟩
  · rw [h]
  · rw [heq, dlookup_dset_ne _ _ _ _ hk]

theorem tabWindow_lookup_ne (lines : List String) (vps : List (String × List String))
    (marker param : String) (i : Nat) (k : String) (hk : k ≠ param) :
    ∀ js acc, dlookup (tabWindow lines vps marker param i acc js) k = dlookup acc k := by
  intro js
  induction js with
  | nil => intro acc; rfl
  | cons j rest ih =>
    intro acc
    unfold tabWindow
    cases hm : dmem (tabPatLoop lines marker param i j acc (vpFor vps param)) param with
    | true =>
      simp only [hm, if_true]
      exact tabPatLoop_lookup_ne lines marker param i j acc k hk _
    | false =>
      simp only [hm, Bool.false_eq_true, if_false]
      rw [ih, tabPatLoop_lookup_ne lines marker param i j acc k hk]

theorem tabWindow_pres (lines : List String) (vps : List (String × List String))
    (marker param : String) (i : Nat) (hna : tabAccept lines marker i i = false)
    (rest : List Nat) (acc : List (String × String)) (k : String) (v : String)
    (h : dlookup acc k = some v) :
    dlookup (tabWindow lines vps marker param i acc (i :: rest)) k = some v := by
  unfold tabWindow
  rw [tabPatLoop_of_not_accept lines marker param i i acc hna]
  by_cases hk : k = param
  · subst hk
    simp only [dmem_of_dlookup acc k v h, if_true]
    exact h
  · cases hm : dmem acc param with
    | true =>
      simp only [hm, if_true]
      exact h
    | false =>
      simp only [hm, Bool.false_eq_true, if_false]
      rw [tabWindow_lookup_ne lines vps marker param i k hk rest acc]
      exact h

theorem tabWindow_found (lines : List String) (vps : List (String × List String))
    (marker param : String) (i : Nat) :
    ∀ js acc,
      dlookup (tabWindow lines vps marker param i acc js) param ≠ dlookup acc param →
      ∃ j ∈ js, ∃ p ∈ vpFor vps param, ∃ g,
        reGroup1 false p (lines.getD j "") = some g ∧
        tabAccept lines marker i j = true ∧
        dlookup (tabWindow lines vps marker param i acc js) param = some g := by
  intro js
  induction js with
  | nil => intro acc h; exact absurd rfl h
  | cons j rest ih =>
    intro acc h
    rcases tabPatLoop_cases lines marker param i j acc (vpFor vps param) with
      hid | ⟨p, hp, g, hg, ha, heq⟩
    · unfold tabWindow at h ⊢
      cases hm : dmem acc param with
      | true =>
        simp only [hid, hm, if_true] at h
        exact absurd rfl h
      | false =>
        simp only [hid, hm, Bool.false_eq_true, if_false] at h ⊢
        rcases ih acc h with ⟨j2, hj2, p2, hp2, g2, hg2, ha2, hl2⟩
        exact ⟨j2, List.mem_cons_of_mem _ hj2, p2, hp2, g2, hg2, ha2, hl2⟩
    · unfold tabWindow at h ⊢
      simp only [heq, dmem_dset_self, if_true] at h ⊢
      exact ⟨j, List.mem_cons_self _ _, p, hp, g, hg, ha,
        dlookup_dset_self acc param g⟩

/-- A marker found in a line blocks acceptance on the marker's own window
line (`j = i`). -/
theorem tabAccept_self_false (lines : List String) (marker : String) (i : Nat)
    (h : strIn (lowerStr marker) (lowerStr (lines.getD i "")) = true) :
    tabAccept lines marker i i = false := by
  unfold tabAccept
  rw [h]
  simp

theorem tabLineStep_eq_window (lines : List String) (markers : List (String × String))
    (vps : List (String × List String)) (acc : List (String × String)) (i : Nat)
    (mk1 mk2 : String)
    (hline : ¬ strip (lines.getD i "") = "")
    (hf : markers.find?
        (fun mk => strIn (lowerStr mk.1) (lowerStr (strip (lines.getD i "")))) =
      some (mk1, mk2)) :
    tabLineStep lines markers vps acc i =
      tabWindow lines vps mk1 mk2 i acc
        (List.range' i (min (i + 3) lines.length - i)) := by
  unfold tabLineStep
  rw [if_neg hline, hf]

theorem tabLineStep_pres (lines : List String) (markers : List (String × String))
    (vps : List (String × List String)) (i : Nat) (acc : List (String × String))
    (k v : String) (h : dlookup acc k = some v) :
    dlookup (tabLineStep lines markers vps acc i) k = some v := by
  by_cases hline : strip (lines.getD i "") = ""
  · unfold tabLineStep
    rw [if_pos hline]
    exact h
  · cases hf : markers.find?
        (fun mk => strIn (lowerStr mk.1) (lowerStr (strip (lines.getD i "")))) with
    | none =>
      unfold tabLineStep
      rw [if_neg hline, hf]
      exact h
    | some mp =>
      obtain ⟨mk1, mk2⟩ := mp
      rw [tabLineStep_eq_window lines markers vps acc i mk1 mk2 hline hf]
      have hmk : strIn (lowerStr mk1) (lowerStr (strip (lines.getD i ""))) = true := by
        have hpred := List.find?_some hf
        simpa using hpred
      have hacc : tabAccept lines mk1 i i = false :=
        tabAccept_self_false lines mk1 i
          (strIn_lower_strip (lowerStr mk1) (lines.getD i "") hmk)
      have hi : i < lines.length := by
        by_contra hge
        exact hline (by rw [List.getD_eq_default _ _ (Nat.le_of_not_lt hge)]; rfl)
      have hrange : List.range' i (min (i + 3) lines.length - i) =
          i :: List.range' (i + 1) (min (i + 3) lines.length - i - 1) := by
        rw [show min (i + 3) lines.length - i =
          (min (i + 3) lines.length - i - 1) + 1 by omega]
        rfl
      rw [hrange]
      exact tabWindow_pres lines vps mk1 mk2 i hacc _ acc k v h

theorem tabLineStep_found (lines : List String) (markers : List (String × String))
    (vps : List (String × List String)) (acc : List (String × String)) (i : Nat)
    (k : String)
    (h : dlookup (tabLineStep lines markers vps acc i) k ≠ dlookup acc k) :
    ∃ marker,
      markers.find?
          (fun mk => strIn (lowerStr mk.1) (lowerStr (strip (lines.getD i "")))) =
        some (marker, k) ∧
      ∃ j, i ≤ j ∧ j < i + 3 ∧ j < lines.length ∧
        ∃ p ∈ vpFor vps k, ∃ g,
          reGroup1 false p (lines.getD j "") = some g ∧
          tabAccept lines marker i j = true ∧
          dlookup (tabLineStep lines markers vps acc i) k = some g := by
  by_cases hline : strip (lines.getD i "") = ""
  · exfalso
    apply h
    unfold tabLineStep
    rw [if_pos hline]
  · cases hf : markers.find?
        (fun mk => strIn (lowerStr mk.1) (lowerStr (strip (lines.getD i "")))) with
    | none =>
      exfalso
      apply h
      unfold tabLineStep
      rw [if_neg hline, hf]
    | some mp =>
      obtain ⟨mk1, mk2⟩ := mp
      have heq := tabLineStep_eq_window lines markers vps acc i mk1 mk2 hline hf
      rw [heq] at h
      by_cases hk : k = mk2
      · subst hk
        have hi : i < lines.length := by
          by_contra hge
          exact hline (by rw [List.getD_eq_default _ _ (Nat.le_of_not_lt hge)]; rfl)
        rcases tabWindow_found lines vps mk1 k i _ acc h with
          ⟨j, hj, p, hp, g, hg, ha, hl⟩
        have hj2 := List.mem_range'_1.mp hj
        refine ⟨mk1, rfl, j, hj2.1, ?_, ?_, p, hp, g, hg, ha, ?_⟩
        · omega
        · omega
        · rw [heq]
          exact hl
      · rw [tabWindow_lookup_ne lines vps mk1 mk2 i k hk] at h
        exact absurd rfl h

theorem extract_tabular_upto_succ (lines : List String) (markers : List (String × String))
    (vps : List (String × List String)) (n : Nat) :
    extract_tabular_upto lines markers vps (n + 1) =
      tabLineStep lines markers vps (extract_tabular_upto lines markers vps n) n := by
  unfold extract_tabular_upto
  rw [List.range_succ, List.foldl_append]
  rfl

end MediLink

namespace MediLink

/-! ### Shared lemmas for the claims -/

/-- The validation pass rebuilds `report_data` exactly as it was. -/
theorem validate_results_fst (ranges : List (String × RefRange)) :
    ∀ data, (validate_results ranges data).1 = data := by
  intro data
  induction data with
  | nil => rfl
  | cons kv rest ih =>
    obtain ⟨k, v⟩ := kv
    unfold validate_results
    simp [ih]

theorem strIn_head (e s : String) : strIn e (e ++ s) = true :=
  strIn_parts e "" s (e ++ s) (by simp [String.data_append])

theorem strIn_head2 (e s1 s2 : String) : strIn e (e ++ s1 ++ s2) = true :=
  strIn_parts e "" (s1 ++ s2) (e ++ s1 ++ s2)
    (by simp [String.data_append, List.append_assoc])

theorem strIn_head3 (e s1 s2 s3 : String) : strIn e (e ++ s1 ++ s2 ++ s3) = true :=
  strIn_parts e "" (s1 ++ s2 ++ s3) (e ++ s1 ++ s2 ++ s3)
    (by simp [String.data_append, List.append_assoc])

theorem strIn_mid (a e s : String) : strIn e (a ++ e ++ s) = true :=
  strIn_parts e a s (a ++ e ++ s) (by simp [String.data_append, List.append_assoc])

/-- Keys added by the header pass are names of its `basic_fields`. -/
theorem extract_basic_information_keys (text : String) :
    ∀ (bfs : List BasicField) (m0 : List (String × String)) (k : String),
      k ∈ dkeys (extract_basic_information text bfs m0) →
      k ∈ dkeys m0 ∨ k ∈ bfs.map BasicField.name := by
  intro bfs
  induction bfs with
  | nil =>
    intro m0 k h
    exact Or.inl h
  | cons bf rest ih =>
    intro m0 k h
    have h2 : k ∈ dkeys (extract_basic_information text rest
        (match headerFieldValue text bf with
         | some v => dset m0 bf.name v
         | none => m0)) := h
    rcases ih _ k h2 with h3 | h3
    · cases hv : headerFieldValue text bf with
      | some v =>
        rw [hv] at h3
        rcases mem_dkeys_dset m0 bf.name v k h3 with h4 | h4
        · right
          simp [h4]
        · exact Or.inl h4
      | none =>
        rw [hv] at h3
        exact Or.inl h3
    · right
      simp only [List.map_cons, List.mem_cons]
      exact Or.inr h3

end MediLink

namespace MediLink

/-- `_extract_basic_patterns` skips keys already present, so it never
disturbs an existing binding. -/
theorem basicPatternMatch_pres (text : String) (acc : List (String × String))
    (mr : MRes) (k v : String) (h : dlookup acc k = some v) :
    dlookup (basicPatternMatch text acc mr) k = some v := by
  simp only [basicPatternMatch]
  split_ifs with h1 h2 h3
  · exact h
  · exact h
  · by_cases hk : k = strip (cleanName (strip ((mGroup text mr 1).getD "")))
    · rw [← hk] at h2
      exact absurd (dmem_of_dlookup acc k v h) h2
    · rw [dlookup_dset_ne _ _ _ _ hk]
      exact h
  · by_cases hk : k = strip (cleanName (strip ((mGroup text mr 1).getD "")))
    · rw [← hk] at h2
      exact absurd (dmem_of_dlookup acc k v h) h2
    · rw [dlookup_dset_ne _ _ _ _ hk]
      exact h

theorem extract_basic_patterns_pres (text : String) (m : List (String × String))
    (k v : String) (h : dlookup m k = some v) :
    dlookup (extract_basic_patterns text m) k = some v := by
  unfold extract_basic_patterns
  refine foldl_preserves _ ?_ basicPatterns m k v h
  intro m2 p k2 v2 h2
  exact foldl_preserves _
    (fun m3 mr k3 v3 h3 => basicPatternMatch_pres text m3 mr k3 v3 h3) _ m2 k2 v2 h2

/-- A `dset` guarded by a membership test never disturbs an existing
binding. -/
theorem guarded_dset_pres (m : List (String × String)) (name w k v : String)
    (h : dlookup m k = some v) :
    dlookup (if dmem m name then m else dset m name w) k = some v := by
  by_cases hm : dmem m name = true
  · rw [if_pos hm]
    exact h
  · rw [if_neg hm]
    have hk : k ≠ name := fun hh => hm (hh ▸ dmem_of_dlookup m k v h)
    rw [dlookup_dset_ne _ _ _ _ hk]
    exact h

/-- A truthiness-checked, membership-guarded assignment never disturbs an
existing binding. -/
theorem guarded_set_pres (m : List (String × String)) (name : String)
    (res : Option String) (k v : String) (h : dlookup m k = some v) :
    dlookup (if dmem m name then m
             else
               match res with
               | some w => if w ≠ "" then dset m name w else m
               | none => m) k = some v := by
  by_cases hm : dmem m name = true
  · rw [if_pos hm]
    exact h
  · rw [if_neg hm]
    cases res with
    | none => exact h
    | some w =>
      show dlookup (if w ≠ "" then dset m name w else m) k = some v
      by_cases hw : w ≠ ""
      · rw [if_pos hw]
        have hk : k ≠ name := fun hh => hm (hh ▸ dmem_of_dlookup m k v h)
        rw [dlookup_dset_ne _ _ _ _ hk]
        exact h
      · rw [if_neg hw]
        exact h

theorem extract_table_data_enhanced_pres (text : String) (m : List (String × String))
    (k v : String) (h : dlookup m k = some v) :
    dlookup (extract_table_data_enhanced text m) k = some v := by
  unfold extract_table_data_enhanced
  refine foldl_preserves _ ?_ labThyroidTableD _ k v ?_
  · intro m2 kv k2 v2 h2
    exact guarded_set_pres m2 kv.1 _ k2 v2 h2
  · refine foldl_preserves _ ?_ (extract_table_rows text) m k v h
    intro m2 p k2 v2 h2
    exact guarded_dset_pres m2 p.1 p.2 k2 v2 h2

theorem lab_fallback_gate_pres (text : String) (cfg : TestTypeConfig)
    (m : List (String × String)) (k v : String) (h : dlookup m k = some v) :
    dlookup (lab_fallback_gate text cfg m) k = some v := by
  unfold lab_fallback_gate
  split_ifs with h1
  · exact extract_table_data_enhanced_pres text m k v h
  · exact h

/-- Keys of `extract_structured_table` are pairwise distinct. -/
theorem extract_structured_table_distinct (text : String) (fcs : List FieldCfg) :
    DistinctKeys (extract_structured_table text fcs) := by
  unfold extract_structured_table
  have hgen : ∀ (l : List FieldCfg) (acc : List (String × String)), DistinctKeys acc →
      DistinctKeys (l.foldl
        (fun acc fc =>
          match extract_numeric_value text
              (generate_table_patterns fc.name fc.unit fc.ftype) fc.unit with
          | some v => if v ≠ "" then dset acc fc.name v else acc
          | none => acc) acc) := by
    intro l
    induction l with
    | nil => intro acc ha; exact ha
    | cons fc rest ih =>
      intro acc ha
      rw [List.foldl_cons]
      refine ih _ ?_
      show DistinctKeys
        (match extract_numeric_value text
            (generate_table_patterns fc.name fc.unit fc.ftype) fc.unit with
         | some v => if v ≠ "" then dset acc fc.name v else acc
         | none => acc)
      cases extract_numeric_value text
          (generate_table_patterns fc.name fc.unit fc.ftype) fc.unit with
      | none => exact ha
      | some w =>
        show DistinctKeys (if w ≠ "" then dset acc fc.name w else acc)
        by_cases hw : w ≠ ""
        · rw [if_pos hw]
          exact distinctKeys_dset acc fc.name w ha
        · rw [if_neg hw]
          exact ha
  exact hgen fcs [] distinctKeys_nil

end MediLink

namespace MediLink

set_option maxRecDepth 10000

/-! ### The claims -/

/-- Claim C9: validation never changes the extracted mapping.  For every
result mapping and every reference-range configuration, `_validate_results`
compares and logs only: the mapping component of its output is exactly its
input, field for field. -/
theorem c9_validation_identity (ranges : List (String × RefRange))
    (data : List (String × String)) :
    (validate_results ranges data).1 = data :=
  validate_results_fst ranges data

/-- Claim C6 (amended): in `_extract_numeric_value` with a declared non-empty
unit, the returned value is the stripped capture of the first matching
pattern with the unit appended exactly when the unit is not a substring of
that capture — a plain substring check. -/
theorem c6_unit_append_substring (text : String) (patterns : List String)
    (unit : String) (hu : unit ≠ "") :
    extract_numeric_value text patterns unit =
      (firstCapture text patterns).map
        (fun c => if strIn unit c = true then c else c ++ " " ++ unit) := by
  induction patterns with
  | nil => rfl
  | cons p rest ih =>
    unfold extract_numeric_value firstCapture
    cases hg : reGroup1 true p text with
    | some g =>
      by_cases hi : strIn unit (strip g) = true
      · simp [hi, hu]
      · simp [hi, hu]
    | none => exact ih

theorem c6_unit_append_substring_witness :
    extract_numeric_value "TSH 2.1" ["TSH\\s*([\\d\\.]+)"] "mIU/L" =
      (firstCapture "TSH 2.1" ["TSH\\s*([\\d\\.]+)"]).map
        (fun c => if strIn "mIU/L" c = true then c else c ++ " " ++ "mIU/L") :=
  c6_unit_append_substring "TSH 2.1" ["TSH\\s*([\\d\\.]+)"] "mIU/L" (by decide)

/-- Claim C6 counterexample: the FBC default-parameter extractor does not
append the declared unit by substring check alone: extraction of `MCH` from
`"MCH 10.5"` yields `"10.5"` without the unit `"pg"`, although `"pg"` is not
a substring of `"10.5"` — the value contains the marker `"10"`, which
suppresses the append. -/
theorem c6_fbc_marker_counterexample :
    dlookup (extract_default_fbc_parameters "MCH 10.5" []) "MCH" = some "10.5" ∧
    strIn "pg" "10.5" = false ∧
    dlookup (extract_default_fbc_parameters "MCH 10.5" []) "MCH" ≠ some "10.5 pg" := by
  refine ⟨?_, ?_, ?_⟩
  · decide
  · decide
  · decide

/-- Claim C4: strategy resolution failure is never fatal.  Whenever the
module/class identifiers are falsy or `importlib`/`getattr` raises
(`resolves … = false`), `create_parser` returns the generic parser, and the
factory's parse is the generic parser's result — no error escapes. -/
theorem c4_unresolved_strategy_generic (env : PyEnv) (text : String)
    (cfg : TestTypeConfig)
    (hres : resolves env cfg.parser_module cfg.parser_class = false) :
    create_parser_choice env cfg.parser_module cfg.parser_class =
      ParserChoice.generic ∧
    factory_parse env text cfg = some (generic_parse text cfg) := by
  have hgen : create_parser_choice env cfg.parser_module cfg.parser_class =
      ParserChoice.generic := by
    unfold resolves at hres
    unfold create_parser_choice
    cases hpm : cfg.parser_module with
    | none => rfl
    | some m =>
      cases hpc : cfg.parser_class with
      | none => rfl
      | some c2 =>
        rw [hpm, hpc] at hres
        have hres2 : (if (m = "" || c2 = "") = true then false
            else
              match import_and_get env m c2 with
              | Except.ok _ => true
              | Except.error _ => false) = false := hres
        show (if (m = "" || c2 = "") = true then ParserChoice.generic
            else
              match import_and_get env m c2 with
              | Except.ok p => p
              | Except.error _ => ParserChoice.generic) = ParserChoice.generic
        by_cases hemp : (m = "" || c2 = "") = true
        · rw [if_pos hemp]
        · rw [if_neg hemp]
          rw [if_neg hemp] at hres2
          cases himp : import_and_get env m c2 with
          | ok p =>
            rw [himp] at hres2
            simp at hres2
          | error e => rfl
  refine ⟨hgen, ?_⟩
  unfold factory_parse
  rw [hgen]

theorem c4_unresolved_strategy_generic_witness :
    factory_parse ⟨[("parser_lab_report", ["LabReportParser"])]⟩ ""
        { parser_module := some "does_not_exist", parser_class := some "SomeClass" } =
      some (generic_parse ""
        { parser_module := some "does_not_exist", parser_class := some "SomeClass" }) :=
  (c4_unresolved_strategy_generic ⟨[("parser_lab_report", ["LabReportParser"])]⟩ ""
    { parser_module := some "does_not_exist", parser_class := some "SomeClass" }
    (by decide)).2

/-- Claim C1: for a numeric `TSH` field with unit `mIU/L`, extraction from
`"TSH 2.1 0.4-4.0"` yields `"2.1 mIU/L"` — the measured value with the unit
appended — and never the reference range `"0.4-4.0"` or its bound `"0.4"`;
the first-priority generated pattern alone captures exactly `"2.1"`. -/
theorem c1_range_vs_result :
    extract_numeric_value "TSH 2.1 0.4-4.0"
        (generate_table_patterns "TSH" "mIU/L" "number") "mIU/L" =
      some "2.1 mIU/L" ∧
    extract_numeric_value "TSH 2.1 0.4-4.0"
        (generate_table_patterns "TSH" "mIU/L" "decimal") "mIU/L" =
      some "2.1 mIU/L" ∧
    dlookup (extract_structured_table "TSH 2.1 0.4-4.0"
        [{ name := "TSH", ftype := "number", unit := "mIU/L" }]) "TSH" =
      some "2.1 mIU/L" ∧
    reGroup1 true ((generate_table_patterns "TSH" "mIU/L" "number").headD "")
        "TSH 2.1 0.4-4.0" = some "2.1" ∧
    extract_numeric_value "TSH 2.1 0.4-4.0"
        (generate_table_patterns "TSH" "mIU/L" "number") "mIU/L" ≠ some "0.4-4.0" ∧
    extract_numeric_value "TSH 2.1 0.4-4.0"
        (generate_table_patterns "TSH" "mIU/L" "number") "mIU/L" ≠ some "0.4" ∧
    extract_numeric_value "TSH 2.1 0.4-4.0"
        (generate_table_patterns "TSH" "mIU/L" "number") "mIU/L" ≠ some "0.4-4.0 mIU/L" ∧
    extract_numeric_value "TSH 2.1 0.4-4.0"
        (generate_table_patterns "TSH" "mIU/L" "number") "mIU/L" ≠ some "0.4 mIU/L" := by
  have h1 : extract_numeric_value "TSH 2.1 0.4-4.0"
      (generate_table_patterns "TSH" "mIU/L" "number") "mIU/L" =
      some "2.1 mIU/L" := by decide
  refine ⟨h1, by decide, by decide, by decide, ?_, ?_, ?_, ?_⟩
  · rw [h1]
    decide
  · rw [h1]
    decide
  · rw [h1]
    decide
  · rw [h1]
    decide

/-- Claim C5 counterexample: `_generate_numeric_patterns` embeds the field
name without `re.escape` — its first pattern for the name `"T4+"` does not
contain the escaped name `"T4\+"` — and the generated table patterns treat
internal whitespace as ZERO-or-more (`\s*`): the field `"Free T4"` matches
`"FreeT4 2.1"`, which has no whitespace between the words, contradicting
the claimed one-or-more semantics. -/
theorem c5_escape_counterexample :
    ((generate_numeric_patterns "T4+" "").headD "" =
        "T4+[:.\\s]*([\\d\\.]+\\s*)" ∧
      strIn (reEscape "T4+") ((generate_numeric_patterns "T4+" "").headD "") = false) ∧
    extract_numeric_value "FreeT4 2.1"
        (generate_table_patterns "Free T4" "" "number") "" = some "2.1" := by
  refine ⟨⟨?_, ?_⟩, ?_⟩
  · decide
  · decide
  · decide

/-- Claim C5 (amended): every pattern of `_generate_table_patterns` embeds
the `re.escape`d field name with each escaped space turned into `\s*`
(zero-or-more whitespace); `_generate_numeric_patterns` embeds the field
name unescaped, with spaces turned into `\s*`; matching is case-insensitive
(all content searches pass `re.IGNORECASE`), so `"Free T4"` is found both in
`"FreeT4 2.1"` (no whitespace) and in `"free t4: 2.1"` (different case). -/
theorem c5_name_embedding :
    (∀ name unit ftype, (generate_table_patterns name unit ftype).all
        (fun p => strIn (escWsName name) p) = true) ∧
    (∀ name unit, (generate_numeric_patterns name unit).all
        (fun p => strIn (strReplace name " " "\\s*") p) = true) ∧
    extract_numeric_value "FreeT4 2.1"
        (generate_table_patterns "Free T4" "" "number") "" = some "2.1" ∧
    extract_numeric_value "free t4: 2.1"
        (generate_table_patterns "Free T4" "" "number") "" = some "2.1" := by
  refine ⟨?_, ?_, by decide, by decide⟩
  · intro name unit ftype
    unfold generate_table_patterns
    by_cases hf : (ftype = "number" || ftype = "decimal") = true
    · rw [if_pos hf]
      simp only [List.all_cons, List.all_nil, Bool.and_eq_true, Bool.and_true]
      refine ⟨strIn_head _ _, strIn_head3 _ _ _ _, strIn_mid _ _ _, strIn_head2 _ _ _,
        strIn_head2 _ _ _, strIn_head _ _, strIn_head _ _, strIn_head _ _,
        strIn_head _ _⟩
    · rw [if_neg hf]
      simp only [List.all_cons, List.all_nil, Bool.and_eq_true, Bool.and_true]
      exact ⟨strIn_head _ _, strIn_mid _ _ _⟩
  · intro name unit
    unfold generate_numeric_patterns
    simp only [List.all_cons, List.all_nil, Bool.and_eq_true, Bool.and_true]
    exact ⟨strIn_head3 _ _ _ _, strIn_head _ _, strIn_head3 _ _ _ _⟩

end MediLink

namespace MediLink

set_option maxRecDepth 10000

/-- Claim C7: content-detection fallback.  With zero configured fields (any
reference ranges) and the text `"Hemoglobin: 13.8 g/dL\nhematocrit\nwbc"`,
the complete-blood-count keywords select the FBC pattern set and the result
maps `Hemoglobin` to `"13.8 g/dL"`, which contains `"13.8"`. -/
theorem c7_fbc_content_detection (rr : List (String × RefRange)) :
    dlookup (generic_parse "Hemoglobin: 13.8 g/dL\nhematocrit\nwbc"
        { reference_ranges := rr }) "Hemoglobin" = some "13.8 g/dL" ∧
    strIn "13.8" "13.8 g/dL" = true := by
  constructor
  · unfold generic_parse
    rw [validate_results_fst]
    show dlookup (detect_and_extract_content "Hemoglobin: 13.8 g/dL\nhematocrit\nwbc"
        (extract_basic_information "Hemoglobin: 13.8 g/dL\nhematocrit\nwbc"
          defaultBasicFields [])) "Hemoglobin" = some "13.8 g/dL"
    decide
  · decide

/-- `_extract_basic_patterns` is the identity when none of its three
patterns matches anywhere in the text. -/
theorem extract_basic_patterns_id (text : String)
    (hbp : ∀ p ∈ basicPatterns, reFinditer true p text = []) :
    ∀ m, extract_basic_patterns text m = m := by
  intro m
  unfold extract_basic_patterns
  have hgen : ∀ ps : List String, (∀ p ∈ ps, reFinditer true p text = []) →
      ∀ m2 : List (String × String),
        ps.foldl (fun acc p => (reFinditer true p text).foldl (basicPatternMatch text) acc)
          m2 = m2 := by
    intro ps
    induction ps with
    | nil => intro _ m2; rfl
    | cons p rest ih =>
      intro hps m2
      rw [List.foldl_cons, hps p (List.mem_cons_self _ _), List.foldl_nil]
      exact ih (fun q hq => hps q (List.mem_cons_of_mem _ hq)) m2
  exact hgen basicPatterns hbp m

/-- Claim C8: empty-input safety.  For a schema with zero configured fields
and any text in which no category keyword occurs, the table-row scanner
recognizes nothing, and no basic label:value pattern matches, the whole
extraction run terminates with a mapping whose keys all belong to the four
header fields. -/
theorem c8_empty_input_safety (text : String) (rr : List (String × RefRange))
    (h1 : thyroidKeywords.any (fun kw => strIn kw (lowerStr text)) = false)
    (h2 : fbcKeywords.any (fun kw => strIn kw (lowerStr text)) = false)
    (h3 : labKeywords.any (fun kw => strIn kw (lowerStr text)) = false)
    (htr : extract_table_rows text = [])
    (hbp : ∀ p ∈ basicPatterns, reFinditer true p text = []) :
    (dkeys (generic_parse text { report_fields := [], reference_ranges := rr })).all
      (fun k => headerNames.contains k) = true := by
  unfold generic_parse
  rw [validate_results_fst]
  show (dkeys (detect_and_extract_content text
      (extract_basic_information text defaultBasicFields []))).all
    (fun k => headerNames.contains k) = true
  unfold detect_and_extract_content
  rw [if_neg (by simp [h1]), if_neg (by simp [h2]), if_neg (by simp [h3])]
  unfold extract_enhanced_table_data
  rw [if_pos htr, htr, List.foldl_nil]
  rw [extract_basic_patterns_id text hbp]
  apply List.all_eq_true.mpr
  intro k hk
  rcases extract_basic_information_keys text defaultBasicFields [] k hk with hnil | hmem
  · simp [dkeys] at hnil
  · have hmem2 : k = "Patient" ∨ k = "Date" ∨ k = "Doctor" ∨ k = "Laboratory" := by
      simpa [defaultBasicFields] using hmem
    rcases hmem2 with h | h | h | h <;> subst h <;> decide

theorem c8_empty_input_safety_witness :
    (dkeys (generic_parse "" { report_fields := [], reference_ranges := [] })).all
      (fun k => headerNames.contains k) = true :=
  c8_empty_input_safety "" [] (by decide) (by decide) (by decide) (by decide)
    (by decide)

/-- Claim C2: first-found-wins across the body tiers.  If the structured
table pass binds a configured field, the per-field pattern pass, the generic
table-row fallback, and the thyroid table fallback all leave that binding
unchanged (both in the body pass and in the full parse); and the last-resort
scanner `_extract_basic_patterns` never overwrites any existing key. -/
theorem c2_no_overwrite_across_tiers :
    (∀ (text : String) (cfg : TestTypeConfig) (m0 : List (String × String))
        (f v : String),
        dlookup (extract_structured_table text cfg.report_fields) f = some v →
        dlookup (lab_test_specific text cfg m0) f = some v ∧
        dlookup (lab_parse text cfg) f = some v) ∧
    (∀ (text : String) (m : List (String × String)) (k v : String),
        dlookup m k = some v →
        dlookup (extract_basic_patterns text m) k = some v) := by
  constructor
  · intro text cfg m0 f v h
    have hmain : ∀ m1 : List (String × String),
        dlookup (lab_test_specific text cfg m1) f = some v := by
      intro m1
      unfold lab_test_specific
      apply lab_fallback_gate_pres
      cases hrf : cfg.report_fields with
      | nil =>
        rw [hrf] at h
        simp [extract_structured_table, dlookup] at h
      | cons fc rest =>
        rw [hrf] at h
        rw [if_pos (by simp)]
        unfold extract_configured_fields_enhanced
        refine foldl_preserves _ ?_ (fc :: rest) _ f v ?_
        · intro m2 fc2 k2 v2 h2
          exact guarded_set_pres m2 fc2.name _ k2 v2 h2
        · exact dlookup_foldl_dset _ m1 f v
            (extract_structured_table_distinct text (fc :: rest)) h
    refine ⟨hmain m0, ?_⟩
    unfold lab_parse
    rw [validate_results_fst]
    exact hmain _
  · intro text m k v h
    exact extract_basic_patterns_pres text m k v h

theorem c2_no_overwrite_across_tiers_witness :
    dlookup (lab_parse "Glucose: 95 mg/dL"
        { report_fields := [{ name := "Glucose", ftype := "number", unit := "mg/dL" }] })
      "Glucose" = some "95 mg/dL" :=
  (c2_no_overwrite_across_tiers.1 "Glucose: 95 mg/dL"
    { report_fields := [{ name := "Glucose", ftype := "number", unit := "mg/dL" }] }
    [] "Glucose" "95 mg/dL" (by decide)).2

theorem extract_tabular_upto_mono (lines : List String)
    (markers : List (String × String)) (vps : List (String × List String)) :
    ∀ n m k v, n ≤ m →
      dlookup (extract_tabular_upto lines markers vps n) k = some v →
      dlookup (extract_tabular_upto lines markers vps m) k = some v := by
  intro n m
  induction m with
  | zero =>
    intro k v hnm h
    have h0 : n = 0 := Nat.le_zero.mp hnm
    rw [← h0]
    exact h
  | succ m2 ih =>
    intro k v hnm h
    by_cases he : n = m2 + 1
    · rw [← he]
      exact h
    · have hle : n ≤ m2 := by omega
      rw [extract_tabular_upto_succ]
      exact tabLineStep_pres _ _ _ _ _ _ _ (ih k v hle h)

/-- Claim C3 (amended): in `_extract_tabular_data`, (i) the run processes
the lines in order; (ii) a field binding, once present after some prefix of
the lines, survives every later line — later marker occurrences never
overwrite it; (iii) when a marker occurs in a line, a match on the marker's
own window line is never accepted, while a match on any strictly later
window line passes the acceptance check even if that line also contains the
marker; (iv) any binding a line adds or changes comes from the first
matching marker of that line and from an accepted value-pattern match
within the window of at most 3 lines starting at the marker line. -/
theorem c3_window_no_overwrite :
    (∀ (lines : List String) (markers : List (String × String))
        (vps : List (String × List String)),
        extract_tabular_data lines markers vps =
          extract_tabular_upto lines markers vps lines.length) ∧
    (∀ (lines : List String) (markers : List (String × String))
        (vps : List (String × List String)) (n m : Nat) (k v : String), n ≤ m →
        dlookup (extract_tabular_upto lines markers vps n) k = some v →
        dlookup (extract_tabular_upto lines markers vps m) k = some v) ∧
    (∀ (lines : List String) (marker : String) (i : Nat),
        strIn (lowerStr marker) (lowerStr (lines.getD i "")) = true →
        tabAccept lines marker i i = false) ∧
    (∀ (lines : List String) (marker : String) (i j : Nat), i < j →
        tabAccept lines marker i j = true) ∧
    (∀ (lines : List String) (markers : List (String × String))
        (vps : List (String × List String)) (acc : List (String × String))
        (i : Nat) (k : String),
        dlookup (tabLineStep lines markers vps acc i) k ≠ dlookup acc k →
        ∃ marker,
          markers.find?
              (fun mk => strIn (lowerStr mk.1) (lowerStr (strip (lines.getD i "")))) =
            some (marker, k) ∧
          ∃ j, i ≤ j ∧ j < i + 3 ∧ j < lines.length ∧
            ∃ p ∈ vpFor vps k, ∃ g,
              reGroup1 false p (lines.getD j "") = some g ∧
              tabAccept lines marker i j = true ∧
              dlookup (tabLineStep lines markers vps acc i) k = some g) := by
  refine ⟨fun _ _ _ => rfl, ?_, ?_, ?_, ?_⟩
  · intro lines markers vps n m k v hnm h
    exact extract_tabular_upto_mono lines markers vps n m k v hnm h
  · intro lines marker i h
    exact tabAccept_self_false lines marker i h
  · intro lines marker i j hij
    unfold tabAccept
    simp [hij]
  · intro lines markers vps acc i k h
    exact tabLineStep_found lines markers vps acc i k h

theorem c3_window_no_overwrite_witness :
    dlookup (extract_tabular_upto ["Hemoglobin", "13.8", "x", "y"]
        [("Hemoglobin", "Hemoglobin")] [] 4) "Hemoglobin" = some "13.8" :=
  c3_window_no_overwrite.2.1 ["Hemoglobin", "13.8", "x", "y"]
    [("Hemoglobin", "Hemoglobin")] [] 2 4 "Hemoglobin" "13.8" (by omega) (by decide)

/-- Claim C3 counterexample: `_extract_tabular_data` does NOT run the window
search for every marker whose lowercase form occurs in a line — the marker
loop `break`s after the first such marker.  On the lines
`["Hemoglobin WBC", "13.8"]` with markers `Hemoglobin` and `WBC`, the
lowercase of `"WBC"` occurs in line 0, its default value pattern matches
`"13.8"` at window line 1 acceptably, yet `WBC` is absent from the result:
only the first marker `Hemoglobin` was processed. -/
theorem c3_first_marker_only_counterexample :
    extract_tabular_data ["Hemoglobin WBC", "13.8"]
        [("Hemoglobin", "Hemoglobin"), ("WBC", "WBC")] [] =
      [("Hemoglobin", "13.8")] ∧
    dlookup (extract_tabular_data ["Hemoglobin WBC", "13.8"]
        [("Hemoglobin", "Hemoglobin"), ("WBC", "WBC")] []) "WBC" = none ∧
    strIn (lowerStr "WBC") (lowerStr (strip "Hemoglobin WBC")) = true ∧
    reGroup1 false "([\\d\\.]+)" "13.8" = some "13.8" ∧
    tabAccept ["Hemoglobin WBC", "13.8"] "WBC" 0 1 = true := by
  refine ⟨?_, ?_, ?_, ?_, ?_⟩
  · decide
  · decide
  · decide
  · decide
  · decide

/-- Claim C10: in header extraction, a pattern without a (matched) capturing
group stores the stripped whole match instead of raising; and whenever the
`Laboratory` field is matched by the pattern containing `CENTRAL` (the two
colon patterns having failed), the stored value is the fixed literal
`"Central Medical Laboratory"`, independent of the casing and spacing of the
matched text. -/
theorem c10_header_central_literal :
    (∀ (text : String) (bf : BasicField) (p : String) (mr : MRes),
        firstPatMatch text bf.patterns = some (p, mr) →
        mGroup text mr 1 = none →
        (bf.name = "Laboratory" && strIn "CENTRAL" p) = false →
        headerFieldValue text bf = some (strip ((mGroup text mr 0).getD ""))) ∧
    (∀ (text : String) (m0 : List (String × String)),
        reSearch true "Laboratory:\\s*(.+)" text = none →
        reSearch true "Lab:\\s*(.+)" text = none →
        (reSearch true "CENTRAL\\s*MEDICAL\\s*LABORATORY" text).isSome = true →
        dlookup (extract_basic_information text defaultBasicFields m0) "Laboratory" =
          some "Central Medical Laboratory") := by
  constructor
  · intro text bf p mr hf hg ho
    unfold headerFieldValue
    rw [hf]
    simp [hg, ho]
    intro hname hstr
    rw [hname] at ho
    simp [hstr] at ho
  · intro text m0 hl1 hl2 hc
    obtain ⟨mr, hmr⟩ := Option.isSome_iff_exists.mp hc
    have hlab : headerFieldValue text
        { name := "Laboratory", required := true,
          patterns := ["Laboratory:\\s*(.+)", "Lab:\\s*(.+)",
            "CENTRAL\\s*MEDICAL\\s*LABORATORY"] } =
        some "Central Medical Laboratory" := by
      unfold headerFieldValue
      have hfirst : firstPatMatch text
          ["Laboratory:\\s*(.+)", "Lab:\\s*(.+)",
            "CENTRAL\\s*MEDICAL\\s*LABORATORY"] =
          some ("CENTRAL\\s*MEDICAL\\s*LABORATORY", mr) := by
        unfold firstPatMatch
        rw [hl1]
        unfold firstPatMatch
        rw [hl2]
        unfold firstPatMatch
        rw [hmr]
      rw [hfirst]
      simp [(by decide : strIn "CENTRAL" "CENTRAL\\s*MEDICAL\\s*LABORATORY" = true)]
    unfold extract_basic_information defaultBasicFields
    rw [List.foldl_cons, List.foldl_cons, List.foldl_cons, List.foldl_cons,
      List.foldl_nil]
    simp only [hlab]
    exact dlookup_dset_self _ _ _

theorem c10_header_central_literal_witness :
    dlookup (extract_basic_information "seen at cEnTrAl Medical LABORATORY"
        defaultBasicFields []) "Laboratory" = some "Central Medical Laboratory" :=
  c10_header_central_literal.2 "seen at cEnTrAl Medical LABORATORY" []
    (by decide) (by decide) (by decide)

end MediLink
